import Mathlib

/-! # Lumos: the client-side emotion-therapist controller

A shallow embedding of `static/js/emotion_detection.js`, `static/js/voice_handler.js`
and `static/js/camera_handler.js`.

Modelling conventions

* The page is single-threaded.  A handler runs to completion, except at an `await`.
  An `async` method is therefore embedded as two functions: `...Start`, the synchronous
  part up to the first `await` (it reports whether a request is now outstanding), and
  `...Resume`, the continuation run when the awaited request settles.  Other handlers may
  run in between, so `...Resume` takes the state it finds, not the state `...Start` left.
* `fetch` followed by `response.json()` settles in one of four ways (`FetchOutcome`).
* A step returns the state reached together with the exception it threw, if any
  (`Step`), so that the effects performed before a `throw` are kept.
* `new Date().toISOString()` is an input of each step (`now`).
* The elements the scripts look up with `getElementById` exist in the page, and
  `window.emotionController` is the controller whose state this is.
* The chat area is the list of its children; message bubbles are opaque to
  `querySelector`, which can only find the welcome placeholder.
* The `chatHistory` item of `sessionStorage` is absent or holds what `JSON.stringify`
  wrote, an array of chat messages, and writing it does not fail.
* Presentation that no handler reads back is left out: scrolling, the capture flash, the
  icon and meter markup, the `d-none` and `camera-active` classes.
* Media streams, interval timers and recognition objects are told apart by identity, a
  number taken from a counter when the object is created.
* The scripts of the page are the three files; in particular nothing but them assigns
  a global.
-/

namespace Lumos

/-! ## Data model -/

/-- The three input modes (`'text'`, `'voice'`, `'camera'`). -/
inductive Mode
  | text
  | voice
  | camera
  deriving DecidableEq, Repr

/-- The `sender` argument of `addChatMessage`. -/
inductive Sender
  | user
  | therapist
  deriving DecidableEq, Repr

/-- The `inputType` argument of `addChatMessage`. -/
inductive InputType
  | text
  | voice
  | facial
  deriving DecidableEq, Repr

/-- One record of the `chatHistory` array kept in `sessionStorage`. -/
structure ChatMessage where
  content : String
  sender : Sender
  timestamp : String
  inputType : InputType
  deriving DecidableEq, Repr

/-- The `timestamp` handed to `addChatMessage`, classified by what `new Date(timestamp)`
makes of it: falsy (`null`, `undefined`, `''`), a date whose `toISOString()` is `iso`,
or an Invalid Date. -/
inductive TimeArg
  | absent
  | valid (iso : String)
  | invalid
  deriving DecidableEq, Repr

/-- A child of `#chatArea`: the welcome placeholder (the element matching
`.text-center.text-muted.py-5`) or a `div.chat-message`. -/
inductive ChatNode
  | welcome
  | message (sender : Sender) (badge : Option String) (body : String) (time : Option String)
  deriving DecidableEq, Repr

/-- An entry of `therapy_response.remedies`. -/
structure Remedy where
  type : String
  title : String
  description : String
  duration : String
  deriving DecidableEq, Repr

/-- The `therapy_response` object of a parsed response body; `full_response` is `none`
when the field is missing. -/
structure TherapyResponse where
  full_response : Option String
  remedies : List Remedy := []
  deriving DecidableEq, Repr

/-- A parsed response body.  A field that is missing is `none` (`absent` for the
timestamp); the confidence is kept as the percentage `Math.round(confidence * 100)`. -/
structure EmotionResult where
  therapy_response : Option TherapyResponse
  emotion : Option String
  confidencePercent : Nat := 0
  timestamp : TimeArg := TimeArg.absent
  deriving DecidableEq, Repr

/-- How `await fetch(...)` followed by `await response.json()` settles. -/
inductive FetchOutcome
  | transportFailure
  | notOk
  | badJson
  | ok (result : EmotionResult)
  deriving DecidableEq, Repr

/-- The JSON body of a request. -/
inductive RequestBody
  | text (text : String)
  | voice (text : String)
  | facial (image_data : String)
  deriving DecidableEq, Repr

/-- One `fetch` issued by the page. -/
structure RemoteCall where
  endpoint : String
  body : RequestBody
  deriving DecidableEq, Repr

/-- An exception value. -/
inductive JsError
  | typeError
  | rangeError
  | syntaxError
  | error (message : String)
  deriving DecidableEq, Repr

/-- The fields of a `VoiceHandler`, with the number of click listeners it has put on
the start and stop buttons.  `recognition` is the identity of the current
`SpeechRecognition` object. -/
structure VoiceHandler where
  recognition : Option Nat := none
  isRecording : Bool := false
  isSupported : Bool := false
  recognitionsCreated : Nat := 0
  startListeners : Nat := 0
  stopListeners : Nat := 0
  deriving DecidableEq, Repr

/-- The fields of a `CameraHandler`, with the number of click listeners it has put on
the start, capture and stop buttons.  `stream` and `captureInterval` hold the identity
of the media stream and of the interval timer; `video` and `canvas` say whether the
element references are non-null. -/
structure CameraHandler where
  stream : Option Nat := none
  video : Bool := false
  canvas : Bool := false
  isActive : Bool := false
  isSupported : Bool := false
  captureInterval : Option Nat := none
  startListeners : Nat := 0
  captureListeners : Nat := 0
  stopListeners : Nat := 0
  deriving DecidableEq, Repr

/-- The controller, its two handlers and the parts of the page and browser they act on.
`liveStreams` are the media streams whose tracks have not been stopped and `timers` the
intervals that are scheduled, both listed by identity; `videoSrcObject` is
`video.srcObject`; `windowCameraHandler` says whether the global `window.cameraHandler`
is set, to the controller's camera handler; `recognitionStarts` and `recognitionStops`
list the recognition objects on which `start()` and `stop()` took effect, in order;
`pendingStatusResets` counts the status-line timeouts of `onRecordingError` that have
not fired yet. -/
structure State where
  currentMode : Mode := Mode.text
  isProcessing : Bool := false
  voiceHandler : Option VoiceHandler := none
  cameraHandler : Option CameraHandler := none
  textInput : String := ""
  sendBtnDisabled : Bool := false
  activeModeBtn : Option Mode := none
  visibleArea : Option Mode := none
  chatArea : List ChatNode := [ChatNode.welcome]
  chatHistory : Option (List ChatMessage) := none
  remoteCalls : List RemoteCall := []
  emotionDisplay : Option (String × Nat) := none
  quickRemedies : Option (List Remedy) := none
  spoken : List String := []
  hasSpeechSynthesis : Bool := true
  hasSpeechRecognition : Bool := true
  hasMediaDevices : Bool := true
  voiceAreaUnsupported : Bool := false
  cameraAreaUnsupported : Bool := false
  voiceStatus : String := ""
  cameraStatus : String := ""
  liveStreams : List Nat := []
  streamsCreated : Nat := 0
  timers : List Nat := []
  timersCreated : Nat := 0
  videoSrcObject : Option Nat := none
  windowCameraHandler : Bool := false
  recognitionStarts : List Nat := []
  recognitionStops : List Nat := []
  pendingStatusResets : Nat := 0
  deriving DecidableEq, Repr

/-- A state reached by a step, with the exception the step threw, if any. -/
abbrev Step := State × Option JsError

/-! ## Transcript store (`emotion_detection.js`) -/

/-- `JSON.parse(sessionStorage.getItem('chatHistory') || '[]')`. -/
def readChatHistory (s : State) : List ChatMessage :=
  s.chatHistory.getD []

/-- `storeMessageInSession(content, sender, timestamp, inputType)`. -/
def storeMessageInSession (s : State) (content : String) (sender : Sender)
    (timestamp : String) (inputType : InputType) : State :=
  let sessionMessages := readChatHistory s ++ [⟨content, sender, timestamp, inputType⟩]
  let sessionMessages :=
    if sessionMessages.length > 50 then
      sessionMessages.drop (sessionMessages.length - 50)
    else sessionMessages
  { s with chatHistory := some sessionMessages }

/-- A sequence of `storeMessageInSession` calls, one per message, in order. -/
def storeAll (s : State) (ms : List ChatMessage) : State :=
  ms.foldl (fun st m => storeMessageInSession st m.content m.sender m.timestamp m.inputType) s

/-! ## Strings -/

/-- The code points `String.prototype.trim` strips: WhiteSpace and LineTerminator. -/
def isJsWhiteSpace (c : Char) : Bool :=
  let n := c.toNat
  n = 9 || n = 10 || n = 11 || n = 12 || n = 13 || n = 32 || n = 160 || n = 5760 ||
    (8192 ≤ n && n ≤ 8202) || n = 8232 || n = 8233 || n = 8239 || n = 8287 ||
    n = 12288 || n = 65279

/-- `String.prototype.trim`. -/
def jsTrim (t : String) : String :=
  ⟨((t.data.dropWhile isJsWhiteSpace).reverse.dropWhile isJsWhiteSpace).reverse⟩

/-- `formatMessage(content)`: `content.replace(/\n/g, '<br>')`. -/
def formatMessage (content : String) : String :=
  ⟨content.data.flatMap fun c => if c.toNat = 10 then "<br>".data else [c]⟩

/-! ## Chat rendering and result handling (`emotion_detection.js`) -/

/-- The `inputTypeIndicator` of a bubble: the icon class of the badge, if there is one. -/
def inputTypeIndicator (sender : Sender) (inputType : InputType) : Option String :=
  if sender = Sender.user ∧ inputType ≠ InputType.text then
    match inputType with
    | InputType.voice => some "fas fa-microphone text-success"
    | InputType.facial => some "fas fa-camera text-warning"
    | InputType.text => some "fas fa-keyboard"
  else none

/-- `addChatMessage(content, sender, timestamp = null, inputType = 'text')`.
`formatMessage(undefined)` throws before the bubble is attached; `toISOString()` of an
Invalid Date throws after it is attached and before it is stored. -/
def addChatMessage (s : State) (now : String) (content : Option String) (sender : Sender)
    (timestamp : TimeArg) (inputType : InputType) : Step :=
  match content with
  | none => (s, some JsError.typeError)
  | some c =>
    let time : Option String :=
      match timestamp with
      | TimeArg.absent => some now
      | TimeArg.valid iso => some iso
      | TimeArg.invalid => none
    let s1 := { s with chatArea := s.chatArea ++
      [ChatNode.message sender (inputTypeIndicator sender inputType) (formatMessage c) time] }
    match time with
    | none => (s1, some JsError.rangeError)
    | some iso =>
      let s2 := storeMessageInSession s1 c sender iso inputType
      ({ s2 with chatArea := s2.chatArea.erase ChatNode.welcome }, none)

/-- `addChatMessageDirect(content, sender, timestamp, inputType)`: the bubble only. -/
def addChatMessageDirect (s : State) (content : String) (sender : Sender)
    (timestamp : String) (inputType : InputType) : State :=
  { s with chatArea := s.chatArea ++
    [ChatNode.message sender (inputTypeIndicator sender inputType) (formatMessage content)
      (some timestamp)] }

/-- `loadChatHistoryFromSession()`. -/
def loadChatHistoryFromSession (s : State) : State :=
  let sessionMessages := readChatHistory s
  if sessionMessages.length > 0 then
    let s1 := { s with chatArea := s.chatArea.erase ChatNode.welcome }
    sessionMessages.foldl
      (fun st msg => addChatMessageDirect st msg.content msg.sender msg.timestamp msg.inputType)
      s1
  else s

/-- `clearChatHistory()`. -/
def clearChatHistory (s : State) : State :=
  { s with chatHistory := none, chatArea := [ChatNode.welcome] }

/-- `updateEmotionDisplay(emotion, confidence)`; `emotion.charAt` throws on a missing
emotion before the display is written. -/
def updateEmotionDisplay (s : State) (emotion : Option String) (confidencePercent : Nat) :
    Step :=
  match emotion with
  | none => (s, some JsError.typeError)
  | some e => ({ s with emotionDisplay := some (e, confidencePercent) }, none)

/-- `updateQuickRemedies(remedies)`; `none` is the "no remedies" placeholder. -/
def updateQuickRemedies (s : State) (remedies : List Remedy) : State :=
  { s with quickRemedies := if remedies.length = 0 then none else some remedies }

/-- `speakResponse(text)`. -/
def speakResponse (s : State) (text : String) : State :=
  { s with spoken := if s.hasSpeechSynthesis then s.spoken ++ [text] else s.spoken }

/-- `handleEmotionResult(result)`. -/
def handleEmotionResult (s : State) (now : String) (result : EmotionResult) : Step :=
  match result.therapy_response with
  | none => (s, some JsError.typeError)
  | some tr =>
    match addChatMessage s now tr.full_response Sender.therapist result.timestamp
        InputType.text with
    | (s1, some e) => (s1, some e)
    | (s1, none) =>
      match updateEmotionDisplay s1 result.emotion result.confidencePercent with
      | (s2, some e) => (s2, some e)
      | (s2, none) =>
        let s3 := updateQuickRemedies s2 tr.remedies
        (speakResponse s3 (tr.full_response.getD ""), none)

/-- `showError(message)`. -/
def showError (s : State) (now : String) (message : String) : Step :=
  addChatMessage s now (some message) Sender.therapist TimeArg.absent InputType.text

/-- `showProcessingState()`. -/
def showProcessingState (s : State) : State :=
  { s with sendBtnDisabled := true }

/-- `hideProcessingState()`. -/
def hideProcessingState (s : State) : State :=
  { s with sendBtnDisabled := false }

/-- What the awaited `fetch` and `response.json()` leave the `try` block with: the
exception thrown, or the parsed body. -/
def awaitResult (outcome : FetchOutcome) (failure : String) : Except JsError EmotionResult :=
  match outcome with
  | FetchOutcome.transportFailure => Except.error JsError.typeError
  | FetchOutcome.notOk => Except.error (JsError.error failure)
  | FetchOutcome.badJson => Except.error JsError.syntaxError
  | FetchOutcome.ok result => Except.ok result

/-! ## Text submission (`emotion_detection.js`) -/

/-- The apology `sendTextMessage` shows. -/
def textApology : String :=
  "Sorry, I had trouble analyzing your message. Please try again."

/-- The `catch` and `finally` blocks of `sendTextMessage`, entered with the result of
the `try` block. -/
def sendTextMessageSettle (r : Step) (now : String) : Step :=
  let r1 : Step :=
    match r with
    | (s, some _) => showError s now textApology
    | (s, none) => (s, none)
  (hideProcessingState { r1.1 with isProcessing := false }, r1.2)

/-- `sendTextMessage()` up to `await fetch(...)`.  The flag says whether the request is
outstanding; it is `false` when the method has already returned. -/
def sendTextMessageStart (s : State) (now : String) : Step × Bool :=
  let text := jsTrim s.textInput
  if text = "" ∨ s.isProcessing = true then ((s, none), false)
  else
    let s1 := showProcessingState { s with isProcessing := true }
    match addChatMessage s1 now (some text) Sender.user TimeArg.absent InputType.text with
    | (s2, some e) => (sendTextMessageSettle (s2, some e) now, false)
    | (s2, none) =>
      (({ s2 with
          textInput := ""
          remoteCalls := s2.remoteCalls ++ [⟨"/analyze_text", RequestBody.text text⟩] }, none),
        true)

/-- `sendTextMessage()` from the point where the awaited request settles. -/
def sendTextMessageResume (s : State) (now : String) (outcome : FetchOutcome) : Step :=
  match awaitResult outcome "Failed to analyze text" with
  | Except.error e => sendTextMessageSettle (s, some e) now
  | Except.ok result => sendTextMessageSettle (handleEmotionResult s now result) now

/-- `sendTextMessage()` run with nothing else in between: `now` is the time of the
submission, `later` the time the request settles. -/
def sendTextMessage (s : State) (now later : String) (outcome : FetchOutcome) : Step :=
  match sendTextMessageStart s now with
  | (r, false) => r
  | ((s1, _), true) => sendTextMessageResume s1 later outcome

/-! ## Mode switching (`emotion_detection.js`, `voice_handler.js`, `camera_handler.js`) -/

/-- `VoiceHandler.initialize()` run on the handler `v`: without the Web Speech API it
shows the unsupported message and returns; otherwise it sets `isSupported`, builds a
new recognition object (`setupSpeechRecognition`) and adds a click listener to the
start and the stop button (`setupVoiceControls`). -/
def voiceInitialize (s : State) (v : VoiceHandler) : State :=
  if s.hasSpeechRecognition = false then { s with voiceAreaUnsupported := true }
  else
    let v1 := { v with isSupported := true }
    let v2 := { v1 with
      recognition := some v1.recognitionsCreated
      recognitionsCreated := v1.recognitionsCreated + 1 }
    let v3 := { v2 with
      startListeners := v2.startListeners + 1
      stopListeners := v2.stopListeners + 1 }
    { s with voiceHandler := some v3 }

/-- `CameraHandler.initialize()` run on the handler `c`: without `getUserMedia` it shows
the unsupported message and returns; otherwise it sets `isSupported`, takes the video
and canvas elements (`setupCameraElements`) and adds a click listener to the start,
capture and stop buttons (`setupCameraControls`). -/
def cameraInitialize (s : State) (c : CameraHandler) : State :=
  if s.hasMediaDevices = false then { s with cameraAreaUnsupported := true }
  else
    let c1 := { c with isSupported := true }
    let c2 := { c1 with video := true, canvas := true }
    let c3 := { c2 with
      startListeners := c2.startListeners + 1
      captureListeners := c2.captureListeners + 1
      stopListeners := c2.stopListeners + 1 }
    { s with cameraHandler := some c3 }

/-- `switchMode(mode)`. -/
def switchMode (s : State) (mode : Mode) : State :=
  let s1 := { s with currentMode := mode, activeModeBtn := some mode, visibleArea := some mode }
  match mode, s1.voiceHandler, s1.cameraHandler with
  | Mode.voice, some v, _ => voiceInitialize s1 v
  | Mode.camera, _, some c => cameraInitialize s1 c
  | _, _, _ => s1

/-- The voice session is idle: there is no handler, or it is not recording. -/
def voiceIdle (s : State) : Bool :=
  match s.voiceHandler with
  | none => true
  | some v => !v.isRecording

/-- The camera session is idle: there is no handler, or it is not active and holds
neither a stream nor an auto-capture timer. -/
def cameraIdle (s : State) : Bool :=
  match s.cameraHandler with
  | none => true
  | some c => !c.isActive && c.stream.isNone && c.captureInterval.isNone

/-! ## Voice analysis (`voice_handler.js`) -/

/-- The apology `processVoiceInput` shows. -/
def voiceApology : String :=
  "Sorry, I had trouble analyzing your voice. Please try again."

/-- `updateVoiceStatus(message)`. -/
def updateVoiceStatus (s : State) (message : String) : State :=
  { s with voiceStatus := message }

/-- The `catch` block of `processVoiceInput`. -/
def processVoiceInputCatch (s : State) (now : String) : Step :=
  showError (updateVoiceStatus s "Error analyzing voice. Please try again.") now voiceApology

/-- `processVoiceInput(transcript)` up to `await fetch(...)`, with the flag of
`sendTextMessageStart`. -/
def processVoiceInputStart (s : State) (now : String) (transcript : String) : Step × Bool :=
  if jsTrim transcript = "" then
    ((updateVoiceStatus s "No speech detected. Please try again.", none), false)
  else
    let s1 := updateVoiceStatus s "Analyzing your voice..."
    match addChatMessage s1 now (some transcript) Sender.user TimeArg.absent InputType.voice with
    | (s2, some _) => (processVoiceInputCatch s2 now, false)
    | (s2, none) =>
      (({ s2 with
          remoteCalls := s2.remoteCalls ++ [⟨"/analyze_voice", RequestBody.voice transcript⟩] },
        none), true)

/-- `processVoiceInput(transcript)` from the point where the awaited request settles. -/
def processVoiceInputResume (s : State) (now : String) (outcome : FetchOutcome) : Step :=
  match awaitResult outcome "Failed to analyze voice" with
  | Except.error _ => processVoiceInputCatch s now
  | Except.ok result =>
    match handleEmotionResult s now result with
    | (s1, some _) => processVoiceInputCatch s1 now
    | (s1, none) => (updateVoiceStatus s1 "Click to start voice recording", none)

/-- `processVoiceInput(transcript)` run with nothing else in between. -/
def processVoiceInput (s : State) (now later : String) (transcript : String)
    (outcome : FetchOutcome) : Step :=
  match processVoiceInputStart s now transcript with
  | (r, false) => r
  | ((s1, _), true) => processVoiceInputResume s1 later outcome

/-! ## Facial capture (`camera_handler.js`) -/

/-- The apology `captureExpression` shows. -/
def facialApology : String :=
  "Sorry, I had trouble analyzing your facial expression. Please try again."

/-- The placeholder a manual capture puts in the chat as the user turn. -/
def facialLabel : String :=
  "Facial expression captured and analyzed"

/-- `updateCameraStatus(message)`. -/
def updateCameraStatus (s : State) (message : String) : State :=
  { s with cameraStatus := message }

/-- The `catch` block of `captureExpression`. -/
def captureExpressionCatch (s : State) (now : String) : Step :=
  showError (updateCameraStatus s "Error analyzing expression. Please try again.") now
    facialApology

/-- `captureExpression(isAutoCapture)` up to `await fetch(...)`, with the flag of
`sendTextMessageStart`; `imageDataUrl` is what `canvas.toDataURL` returns for the frame
drawn.  Without a handler there is nothing to call the method on. -/
def captureExpressionStart (s : State) (isAutoCapture : Bool) (imageDataUrl : String) :
    Step × Bool :=
  match s.cameraHandler with
  | none => ((s, none), false)
  | some cam =>
    if !cam.isActive || !cam.video || !cam.canvas then ((s, none), false)
    else
      let s1 := if !isAutoCapture then updateCameraStatus s "Analyzing facial expression..."
        else s
      (({ s1 with
          remoteCalls := s1.remoteCalls ++
            [⟨"/analyze_facial", RequestBody.facial imageDataUrl⟩] }, none), true)

/-- `captureExpression(isAutoCapture)` from the point where the awaited request
settles. -/
def captureExpressionResume (s : State) (now : String) (isAutoCapture : Bool)
    (outcome : FetchOutcome) : Step :=
  match awaitResult outcome "Failed to analyze facial expression" with
  | Except.error _ => captureExpressionCatch s now
  | Except.ok result =>
    let r1 : Step :=
      if !isAutoCapture then
        addChatMessage s now (some facialLabel) Sender.user TimeArg.absent InputType.facial
      else (s, none)
    match r1 with
    | (s1, some _) => captureExpressionCatch s1 now
    | (s1, none) =>
      match handleEmotionResult s1 now result with
      | (s2, some _) => captureExpressionCatch s2 now
      | (s2, none) =>
        (if !isAutoCapture then
            updateCameraStatus s2 "Expression analyzed! Camera continues monitoring..."
          else s2, none)

/-- `captureExpression(isAutoCapture)` run with nothing else in between. -/
def captureExpression (s : State) (now : String) (isAutoCapture : Bool)
    (imageDataUrl : String) (outcome : FetchOutcome) : Step :=
  match captureExpressionStart s isAutoCapture imageDataUrl with
  | (r, false) => r
  | ((s1, _), true) => captureExpressionResume s1 now isAutoCapture outcome

/-- The callback `startAutoCaptureMode` hands to `setInterval`:
`this.captureExpression(true)`. -/
def autoCaptureTick (s : State) (now : String) (imageDataUrl : String)
    (outcome : FetchOutcome) : Step :=
  captureExpression s now true imageDataUrl outcome

/-! ## Camera lifecycle (`camera_handler.js`) -/

/-- How `await navigator.mediaDevices.getUserMedia(...)` settles: with a stream, or
rejected with an error of the given `name`. -/
inductive MediaOutcome
  | granted
  | rejected (name : String)
  deriving DecidableEq, Repr

/-- How the awaited `loadedmetadata` event and `video.play()` settle. -/
inductive PlayOutcome
  | playing
  | rejected (name : String)
  deriving DecidableEq, Repr

/-- The statements of the `try` block of `stopCamera` that may throw. -/
inductive TeardownStep
  | cancelTimer
  | stopTracks
  | detachVideo
  | updateControls
  deriving DecidableEq, Repr

/-- `handleCameraError(error)`, for an error named `name`. -/
def handleCameraError (s : State) (name : String) : State :=
  updateCameraStatus s
    (if name = "NotAllowedError" then
      "Camera access denied. Please allow camera access and try again."
    else if name = "NotFoundError" then
      "No camera found. Please check your camera and try again."
    else if name = "NotReadableError" then
      "Camera is being used by another application."
    else if name = "OverconstrainedError" then
      "Camera constraints could not be satisfied."
    else if name = "SecurityError" then
      "Camera access blocked for security reasons."
    else "Camera error occurred.")

/-- `startAutoCaptureMode()`: `setInterval` schedules a new timer, and its identity
replaces whatever `captureInterval` held. -/
def startAutoCaptureMode (s : State) : State :=
  match s.cameraHandler with
  | none => s
  | some cam =>
    { s with
      timers := s.timers ++ [s.timersCreated]
      timersCreated := s.timersCreated + 1
      cameraHandler := some { cam with captureInterval := some s.timersCreated } }

/-- `stopAutoCaptureMode()`. -/
def stopAutoCaptureMode (s : State) : State :=
  match s.cameraHandler with
  | none => s
  | some cam =>
    match cam.captureInterval with
    | none => s
    | some t =>
      { s with
        timers := s.timers.filter fun x => decide (x ≠ t)
        cameraHandler := some { cam with captureInterval := none } }

/-- `startCamera()` up to `await getUserMedia(...)`; the flag says whether the request is
outstanding. -/
def startCameraStart (s : State) : State × Bool :=
  match s.cameraHandler with
  | none => (s, false)
  | some cam =>
    if !cam.isSupported || cam.isActive then (s, false)
    else (updateCameraStatus s "Requesting camera access...", true)

/-- The end of the `try` block of `startCamera`: `isActive = true`, the status line, and
`startAutoCaptureMode()`. -/
def startCameraActivate (s : State) : State :=
  match s.cameraHandler with
  | none => s
  | some cam =>
    startAutoCaptureMode
      (updateCameraStatus { s with cameraHandler := some { cam with isActive := true } }
        "Camera active - position your face in the frame")

/-- `startCamera()` from the point where `getUserMedia` settles, up to the awaited
`loadedmetadata` and `play()`; without a video element it runs to the end.  A rejection
goes to the `catch` block. -/
def startCameraAcquire (s : State) (outcome : MediaOutcome) : State × Bool :=
  match s.cameraHandler with
  | none => (s, false)
  | some cam =>
    match outcome with
    | MediaOutcome.rejected name => (handleCameraError s name, false)
    | MediaOutcome.granted =>
      let s1 := { s with
        streamsCreated := s.streamsCreated + 1
        liveStreams := s.liveStreams ++ [s.streamsCreated]
        cameraHandler := some { cam with stream := some s.streamsCreated } }
      if cam.video then ({ s1 with videoSrcObject := some s.streamsCreated }, true)
      else (startCameraActivate s1, false)

/-- `startCamera()` from the point where the video has its metadata and `play()`
settles. -/
def startCameraPlay (s : State) (outcome : PlayOutcome) : State :=
  match outcome with
  | PlayOutcome.rejected name => handleCameraError s name
  | PlayOutcome.playing => startCameraActivate s

/-- `startCamera()` run with nothing else in between. -/
def startCamera (s : State) (media : MediaOutcome) (play : PlayOutcome) : State :=
  match startCameraStart s with
  | (s1, false) => s1
  | (s1, true) =>
    match startCameraAcquire s1 media with
    | (s2, false) => s2
    | (s2, true) => startCameraPlay s2 play

/-- `stopCamera()`.  `fault` names the statement of the `try` block that throws when it
is executed, if one does; the `catch` block logs the exception and the method returns. -/
def stopCamera (s : State) (fault : Option TeardownStep) : State :=
  match s.cameraHandler with
  | none => s
  | some cam =>
    if !cam.isActive then s
    else if fault = some TeardownStep.cancelTimer ∧ cam.captureInterval.isSome then s
    else
      let s1 := stopAutoCaptureMode s
      if fault = some TeardownStep.stopTracks ∧ cam.stream.isSome then s1
      else
        let s2 :=
          match cam.stream with
          | some id =>
            { s1 with
              liveStreams := s1.liveStreams.filter fun x => decide (x ≠ id)
              cameraHandler := s1.cameraHandler.map fun c => { c with stream := none } }
          | none => s1
        if fault = some TeardownStep.detachVideo ∧ cam.video = true then s2
        else
          let s3 := if cam.video then { s2 with videoSrcObject := none } else s2
          let s4 := { s3 with
            cameraHandler := s3.cameraHandler.map fun c => { c with isActive := false } }
          if fault = some TeardownStep.updateControls then s4
          else updateCameraStatus s4 "Click to start camera for facial emotion detection"

/-- `destroy()`. -/
def destroy (s : State) (fault : Option TeardownStep) : State :=
  stopAutoCaptureMode (stopCamera s fault)

/-- The `beforeunload` listener of `camera_handler.js`:
`if (window.cameraHandler) window.cameraHandler.destroy()`. -/
def beforeUnload (s : State) (fault : Option TeardownStep) : State :=
  if s.windowCameraHandler then destroy s fault else s

/-- A click on the start button of the camera: every click listener that
`setupCameraControls` has added calls `startCamera()`, which runs up to its `await`.
The number returned counts the calls whose `getUserMedia` request is now outstanding. -/
def clickStartCamera (s : State) : State × Nat :=
  match s.cameraHandler with
  | none => (s, 0)
  | some cam =>
    (List.range cam.startListeners).foldl
      (fun acc _ =>
        match startCameraStart acc.1 with
        | (t, true) => (t, acc.2 + 1)
        | (t, false) => (t, acc.2))
      (s, 0)

/-! ## Voice session (`voice_handler.js`) -/

/-- An entry of `event.results`: the transcript of its first alternative and its
`isFinal` flag. -/
structure SpeechResult where
  transcript : String
  isFinal : Bool
  deriving DecidableEq, Repr

/-- A `SpeechRecognitionEvent` as `onresult` reads it. -/
structure SpeechEvent where
  resultIndex : Nat
  results : List SpeechResult
  deriving DecidableEq, Repr

/-- The loop of `onresult`: `(finalTranscript, interimTranscript)` after the results from
`event.resultIndex` on have been read. -/
def collectTranscripts (event : SpeechEvent) : String × String :=
  (event.results.drop event.resultIndex).foldl
    (fun acc res =>
      if res.isFinal then (acc.1 ++ res.transcript, acc.2) else (acc.1, acc.2 ++ res.transcript))
    ("", "")

/-- `onRecordingComplete(transcript)`: it calls `processVoiceInput(transcript)`, which
runs up to its first `await`. -/
def onRecordingComplete (s : State) (now : String) (transcript : String) : Step × Bool :=
  processVoiceInputStart s now transcript

/-- The `onresult` handler of the recognition object.  The flag is that of
`processVoiceInputStart`, and `false` when `processVoiceInput` is not called. -/
def onresult (s : State) (now : String) (event : SpeechEvent) : Step × Bool :=
  let finalTranscript := (collectTranscripts event).1
  let interimTranscript := (collectTranscripts event).2
  let s1 := updateVoiceStatus s
    (if interimTranscript ≠ "" then interimTranscript else finalTranscript)
  if finalTranscript ≠ "" then onRecordingComplete s1 now finalTranscript
  else ((s1, none), false)

/-- `startRecording()`; `startThrows` says whether `recognition.start()` throws. -/
def startRecording (s : State) (startThrows : Bool) : State :=
  match s.voiceHandler with
  | none => s
  | some v =>
    if !v.isSupported || v.isRecording then s
    else
      match v.recognition, startThrows with
      | some id, false =>
        { s with
          recognitionStarts := s.recognitionStarts ++ [id]
          voiceHandler := some { v with isRecording := true } }
      | _, _ => updateVoiceStatus s "Could not start voice recording. Please try again."

/-- `stopRecording()`; `stopThrows` says whether `recognition.stop()` throws. -/
def stopRecording (s : State) (stopThrows : Bool) : State :=
  match s.voiceHandler with
  | none => s
  | some v =>
    if !v.isRecording then s
    else
      match v.recognition, stopThrows with
      | some id, false =>
        { s with
          recognitionStops := s.recognitionStops ++ [id]
          voiceHandler := some { v with isRecording := false } }
      | _, _ => s

/-- `onRecordingStart()`, the `onstart` handler. -/
def onRecordingStart (s : State) : State :=
  match s.voiceHandler with
  | none => s
  | some v =>
    updateVoiceStatus { s with voiceHandler := some { v with isRecording := true } } "Listening..."

/-- `onRecordingEnd()`, the `onend` handler. -/
def onRecordingEnd (s : State) : State :=
  match s.voiceHandler with
  | none => s
  | some v => { s with voiceHandler := some { v with isRecording := false } }

/-- The status message `onRecordingError` picks for an error code: the `switch` over
`error`, with the generic message as the default. -/
def recordingErrorMessage (error : String) : String :=
  if error = "network" then "Network error. Please check your connection."
  else if error = "not-allowed" then
    "Microphone access denied. Please allow microphone access."
  else if error = "no-speech" then "No speech detected. Please try again."
  else if error = "audio-capture" then
    "No microphone found. Please check your audio settings."
  else "Voice recognition error occurred."

/-- `onRecordingError(error)`, the `onerror` handler: it clears `isRecording`, shows the
message of the error and sets the 3 s timeout that restores the idle prompt. -/
def onRecordingError (s : State) (error : String) : State :=
  match s.voiceHandler with
  | none => s
  | some v =>
    let s1 := { s with voiceHandler := some { v with isRecording := false } }
    let s2 := updateVoiceStatus s1 (recordingErrorMessage error)
    { s2 with pendingStatusResets := s2.pendingStatusResets + 1 }

/-- The callback `onRecordingError` hands to `setTimeout`. -/
def voiceStatusReset (s : State) : State :=
  { updateVoiceStatus s "Click to start voice recording" with
    pendingStatusResets := s.pendingStatusResets - 1 }

/-! ## Page load (`emotion_detection.js`) -/

/-- `new VoiceHandler()`. -/
def newVoiceHandler (s : State) : State :=
  voiceInitialize { s with voiceHandler := some {} } {}

/-- `new CameraHandler()`. -/
def newCameraHandler (s : State) : State :=
  cameraInitialize { s with cameraHandler := some {} } {}

/-- The `DOMContentLoaded` listener: `new EmotionDetectionController()` on the page `s`,
with the three scripts loaded.  The constructor sets `currentMode` and `isProcessing`;
`init()` shows the text mode, hydrates the chat and builds the two handlers. -/
def controllerInit (s : State) : State :=
  let s1 := { s with
    currentMode := Mode.text, isProcessing := false, voiceHandler := none, cameraHandler := none }
  let s2 := switchMode s1 Mode.text
  let s3 := loadChatHistoryFromSession s2
  let s4 := newVoiceHandler s3
  newCameraHandler s4

/-! ## Observations -/

/-- A well-formed analysis result: the response text and the emotion are present and the
timestamp, if there is one, is a date. -/
def EmotionResult.wellFormed (r : EmotionResult) : Bool :=
  (match r.therapy_response with
    | some tr => tr.full_response.isSome
    | none => false) && r.emotion.isSome && decide (r.timestamp ≠ TimeArg.invalid)

/-- The response text of a result (`result.therapy_response.full_response`). -/
def EmotionResult.fullResponse (r : EmotionResult) : String :=
  match r.therapy_response with
  | some tr => tr.full_response.getD ""
  | none => ""

/-- The time a bubble built from `timestamp` is stored under. -/
def TimeArg.iso (timestamp : TimeArg) (now : String) : String :=
  match timestamp with
  | TimeArg.valid iso => iso
  | _ => now

/-- The user-sender bubbles of a chat area. -/
def userBubbles (nodes : List ChatNode) : List ChatNode :=
  nodes.filter fun n =>
    match n with
    | ChatNode.message Sender.user _ _ _ => true
    | _ => false

/-- The bubble that shows a stored entry. -/
def renderedEntry (m : ChatMessage) : ChatNode :=
  ChatNode.message m.sender (inputTypeIndicator m.sender m.inputType) (formatMessage m.content)
    (some m.timestamp)

/-- The message bubbles of a chat area: its children other than the welcome placeholder. -/
def messageBubbles (nodes : List ChatNode) : List ChatNode :=
  nodes.filter fun n => decide (n ≠ ChatNode.welcome)

/-- The state `addChatMessage` leaves when it does not throw: the bubble of `m` is in the
chat area, `m` is stored, and the welcome placeholder is gone. -/
def appendMessage (s : State) (m : ChatMessage) : State :=
  { storeMessageInSession s m.content m.sender m.timestamp m.inputType with
    chatArea := (s.chatArea ++ [renderedEntry m]).erase ChatNode.welcome }

/-- The therapist turn `handleEmotionResult` stores for a result. -/
def therapistReply (r : EmotionResult) (now : String) : ChatMessage :=
  ⟨r.fullResponse, Sender.therapist, r.timestamp.iso now, InputType.text⟩

/-- The therapist turn `showError` stores for a message. -/
def errorTurn (message now : String) : ChatMessage :=
  ⟨message, Sender.therapist, now, InputType.text⟩

/-- The user turn `addChatMessage(content, 'user', null, inputType)` stores. -/
def userTurn (content now : String) (inputType : InputType) : ChatMessage :=
  ⟨content, Sender.user, now, inputType⟩

/-- The user-sender entries of a transcript. -/
def userMessages (log : List ChatMessage) : List ChatMessage :=
  log.filter fun m => decide (m.sender = Sender.user)

/-- The outcomes in which no parsed body reaches the result handler. -/
def FetchOutcome.isFailure (o : FetchOutcome) : Bool :=
  match o with
  | FetchOutcome.ok _ => false
  | _ => true

/-- Between `s` and `t` at most `n` entries were stored, all of them therapist turns,
and no user bubble was added to or removed from the chat area. -/
def OnlyTherapistTurns (n : Nat) (s t : State) : Prop :=
  (∃ ms : List ChatMessage, ms.length ≤ n ∧ (∀ m ∈ ms, m.sender = Sender.therapist) ∧
    t.chatHistory = (storeAll s ms).chatHistory) ∧
  userBubbles t.chatArea = userBubbles s.chatArea

/-- Between `s` and `t` exactly the entries `ms` were stored, in order, and exactly their
bubbles were added to the chat area, in order. -/
def Stored (s t : State) (ms : List ChatMessage) : Prop :=
  t.chatHistory = (storeAll s ms).chatHistory ∧
  messageBubbles t.chatArea = messageBubbles s.chatArea ++ ms.map renderedEntry

/-- The handler that went from `s` to the step `r` stored exactly the entries `ms`,
issued exactly the remote call `call` and let no exception escape. -/
def Exchange (s : State) (r : Step) (ms : List ChatMessage) (call : RemoteCall) : Prop :=
  Stored s r.1 ms ∧ r.1.remoteCalls = s.remoteCalls ++ [call] ∧ r.2 = none

/-- The camera handler exists, is active and has its video and canvas elements: the
guard of `captureExpression` lets the call through. -/
def cameraReady (s : State) : Bool :=
  match s.cameraHandler with
  | some c => c.isActive && c.video && c.canvas
  | none => false

/-- A page whose persisted transcript holds a spoken user turn of two lines and the
therapist's reply, before hydration. -/
def hydrationSample : State :=
  { chatHistory := some
      [⟨"I feel\nanxious", Sender.user, "2024-01-01T00:00:00.000Z", InputType.voice⟩,
        ⟨"I hear you.", Sender.therapist, "2024-01-01T00:00:01.000Z", InputType.text⟩] }

/-- An example entry of a transcript. -/
def sampleEntry (n : Nat) : ChatMessage :=
  ⟨toString n, Sender.user, "2024-01-01T00:00:00.000Z", InputType.text⟩

/-- A state in which both sessions are capturing: the voice handler is recording and the
camera handler is active with a stream and an auto-capture timer. -/
def capturingState : State :=
  { currentMode := Mode.camera
    voiceHandler := some
      { recognition := some 0, isRecording := true, isSupported := true, recognitionsCreated := 1,
        startListeners := 1, stopListeners := 1 }
    cameraHandler := some
      { stream := some 0, video := true, canvas := true, isActive := true, isSupported := true,
        captureInterval := some 0, startListeners := 1, captureListeners := 1, stopListeners := 1 } }

/-- The state in which a first `sendTextMessage` is awaiting its response and the user
has typed a second message. -/
def outstandingTextState : State :=
  { (sendTextMessageStart { textInput := "hello" } "2024-01-01T00:00:00.000Z").1.1 with
    textInput := "again" }

/-- A state in which all three modalities accept a submission: a message is typed, no
request is outstanding, and the camera is active. -/
def readyState : State :=
  { capturingState with textInput := "I feel anxious today" }

/-- An example of a well-formed analysis result. -/
def sampleResult : EmotionResult :=
  { therapy_response := some { full_response := some "I hear you." }
    emotion := some "fear"
    confidencePercent := 80
    timestamp := TimeArg.valid "2024-01-01T00:00:05.000Z" }

/-- The camera handler exists and its `isActive` flag is set. -/
def cameraActive (s : State) : Bool :=
  match s.cameraHandler with
  | some c => c.isActive
  | none => false

/-- The voice handler exists and its `isRecording` flag is set. -/
def voiceRecording (s : State) : Bool :=
  match s.voiceHandler with
  | some v => v.isRecording
  | none => false

/-- The stream the camera handler holds (`this.stream`). -/
def heldStream (s : State) : Option Nat :=
  s.cameraHandler.bind fun c => c.stream

/-- The timer the camera handler holds (`this.captureInterval`). -/
def heldTimer (s : State) : Option Nat :=
  s.cameraHandler.bind fun c => c.captureInterval

/-- The camera handler exists and has its video element. -/
def heldVideo (s : State) : Bool :=
  match s.cameraHandler with
  | some c => c.video
  | none => false

/-- `startCamera()` with a `stopCamera()` requested while `getUserMedia` is outstanding:
the start runs up to its `await`, `stopCamera()` runs, and the start then continues as
the request and the video settle. -/
def startCameraInterrupted (s : State) (fault : Option TeardownStep) (media : MediaOutcome)
    (play : PlayOutcome) : State :=
  match startCameraStart s with
  | (s1, false) => stopCamera s1 fault
  | (s1, true) =>
    match startCameraAcquire (stopCamera s1 fault) media with
    | (s2, false) => s2
    | (s2, true) => startCameraPlay s2 play

/-- The page once `DOMContentLoaded` has run, in a browser with every capability and an
empty session storage. -/
def loadedPage : State :=
  controllerInit {}

/-- The camera handler of the loaded page: supported, with its elements and one listener
on each control, and idle. -/
def loadedCameraHandler : CameraHandler :=
  { video := true, canvas := true, isSupported := true, startListeners := 1,
    captureListeners := 1, stopListeners := 1 }

/-- The loaded page after a `startCamera()` that ran to the end. -/
def activeCameraPage : State :=
  startCamera loadedPage MediaOutcome.granted PlayOutcome.playing

/-- The loaded page after `startCamera()` has been given its stream and is awaiting the
video. -/
def acquiredPage : State :=
  (startCameraAcquire (startCameraStart loadedPage).1 MediaOutcome.granted).1

/-- The loaded page after a `startCamera()` whose `video.play()` was rejected. -/
def failedStartPage : State :=
  startCamera loadedPage MediaOutcome.granted (PlayOutcome.rejected "AbortError")

/-- The loaded page, switched to voice mode, after `startRecording()`. -/
def recordingPage : State :=
  startRecording (switchMode loadedPage Mode.voice) false

/-- The transcripts of the final results an event brings (those from `resultIndex` on),
in order. -/
def finalFragments (event : SpeechEvent) : List String :=
  ((event.results.drop event.resultIndex).filter fun r => r.isFinal).map fun r => r.transcript

/-- The transcripts of the interim results an event brings (those from `resultIndex`
on), in order. -/
def interimFragments (event : SpeechEvent) : List String :=
  ((event.results.drop event.resultIndex).filter fun r => !r.isFinal).map fun r => r.transcript

/-- The event that brings the one result `transcript`. -/
def singleResult (transcript : String) (isFinal : Bool) : SpeechEvent :=
  ⟨0, [⟨transcript, isFinal⟩]⟩

/-- The recording page after the interim result "I feel" has been delivered. -/
def afterInterimPage : State :=
  (onresult recordingPage "2024-01-01T00:00:01.000Z" (singleResult "I feel" false)).1.1

/-- The loaded page after `switchMode('voice')`. -/
def voiceModePage : State :=
  switchMode loadedPage Mode.voice

/-- The loaded page after `switchMode('camera')`. -/
def cameraModePage : State :=
  switchMode loadedPage Mode.camera

/-- The page in camera mode after one click on the start button, once both
`startCamera()` calls the click made have been given a stream and have seen their video
play, the first before the second. -/
def doubleStartPage : State :=
  startCameraPlay
    (startCameraAcquire
      (startCameraPlay
        (startCameraAcquire (clickStartCamera cameraModePage).1 MediaOutcome.granted).1
        PlayOutcome.playing)
      MediaOutcome.granted).1
    PlayOutcome.playing

/-! ## The transcript store -/


theorem readChatHistory_storeMessageInSession (s : State) (content : String) (sender : Sender)
    (timestamp : String) (inputType : InputType) :
    readChatHistory (storeMessageInSession s content sender timestamp inputType) =
      (readChatHistory s ++ [ChatMessage.mk content sender timestamp inputType]).drop
        ((readChatHistory s ++ [ChatMessage.mk content sender timestamp inputType]).length - 50) := by
  unfold storeMessageInSession
  simp only [readChatHistory, Option.getD_some]
  split
  · rfl
  · rename_i h
    have : ((s.chatHistory.getD []) ++ [ChatMessage.mk content sender timestamp inputType]).length - 50 = 0 := by
      omega
    rw [this]; rfl

theorem readChatHistory_storeAll (msgs : List ChatMessage) :
    ∀ s : State, (readChatHistory s).length ≤ 50 →
      readChatHistory (storeAll s msgs) =
        (readChatHistory s ++ msgs).drop ((readChatHistory s ++ msgs).length - 50) := by
  induction msgs with
  | nil =>
    intro s h
    have : (readChatHistory s ++ []).length - 50 = 0 := by simp; omega
    rw [this]; simp [storeAll]
  | cons m ms ih =>
    intro s h
    have hstep : storeAll s (m :: ms) =
        storeAll (storeMessageInSession s m.content m.sender m.timestamp m.inputType) ms := rfl
    have hm : (⟨m.content, m.sender, m.timestamp, m.inputType⟩ : ChatMessage) = m := rfl
    have h1 := readChatHistory_storeMessageInSession s m.content m.sender m.timestamp m.inputType
    rw [hm] at h1
    have hlen : (readChatHistory
        (storeMessageInSession s m.content m.sender m.timestamp m.inputType)).length ≤ 50 := by
      rw [h1]; simp; omega
    rw [hstep, ih _ hlen, h1]
    have hk : (readChatHistory s ++ [m]).length - 50 ≤ (readChatHistory s ++ [m]).length := by omega
    rw [← List.drop_append_of_le_length hk, List.drop_drop]
    have : readChatHistory s ++ [m] ++ ms = readChatHistory s ++ m :: ms := by simp
    rw [this]
    congr 1
    simp only [List.length_drop, List.length_append, List.length_cons, List.length_nil]
    omega


/-- C1: starting from a persisted transcript of at most 50 entries, after any sequence of
`storeMessageInSession` calls the transcript has at most 50 entries and is the last
`min 50 total` entries of the initial log followed by the appended messages, in order;
after 51 appends to an empty log it has 50 entries and entry 0 is the second message
appended. -/
theorem storeMessageInSession_keeps_last_50 (s : State) (msgs : List ChatMessage)
    (h : (readChatHistory s).length ≤ 50) :
    (readChatHistory (storeAll s msgs)).length ≤ 50 ∧
    (readChatHistory (storeAll s msgs)).length = min 50 (readChatHistory s ++ msgs).length ∧
    readChatHistory (storeAll s msgs) =
      (readChatHistory s ++ msgs).drop ((readChatHistory s ++ msgs).length - 50) ∧
    (readChatHistory s = [] → msgs.length = 51 →
      (readChatHistory (storeAll s msgs)).length = 50 ∧
      (readChatHistory (storeAll s msgs))[0]? = msgs[1]? ∧
      (readChatHistory (storeAll s msgs)) = msgs.drop 1) := by
  have key := readChatHistory_storeAll msgs s h
  refine ⟨?_, ?_, key, ?_⟩
  · rw [key, List.length_drop]; omega
  · rw [key, List.length_drop]; omega
  · intro h0 h51
    rw [key, h0]
    simp only [List.nil_append, h51]
    refine ⟨?_, ?_⟩
    · rw [List.length_drop]; omega
    · simp [List.getElem?_drop]

/-- C1, at a log holding one entry to which two messages are appended. -/
theorem storeMessageInSession_keeps_last_50_witness :
    (readChatHistory { chatHistory := some [sampleEntry 0] }).length ≤ 50 ∧
    readChatHistory (storeAll { chatHistory := some [sampleEntry 0] }
        [sampleEntry 1, sampleEntry 2]) =
      (readChatHistory { chatHistory := some [sampleEntry 0] } ++
          [sampleEntry 1, sampleEntry 2]).drop
        ((readChatHistory { chatHistory := some [sampleEntry 0] } ++
          [sampleEntry 1, sampleEntry 2]).length - 50) :=
  ⟨by decide,
    (storeMessageInSession_keeps_last_50 { chatHistory := some [sampleEntry 0] }
      [sampleEntry 1, sampleEntry 2] (by decide)).2.2.1⟩

/-! ## Hydration -/

theorem foldl_addChatMessageDirect (msgs : List ChatMessage) :
    ∀ s : State,
      msgs.foldl
        (fun st msg => addChatMessageDirect st msg.content msg.sender msg.timestamp msg.inputType)
        s = { s with chatArea := s.chatArea ++ msgs.map renderedEntry } := by
  induction msgs with
  | nil => intro s; simp
  | cons m ms ih =>
    intro s
    rw [List.foldl_cons, ih]
    simp [addChatMessageDirect, renderedEntry]

theorem loadChatHistoryFromSession_eq (s : State) :
    loadChatHistoryFromSession s =
      { s with chatArea :=
          (if readChatHistory s = [] then s.chatArea else s.chatArea.erase ChatNode.welcome) ++
            (readChatHistory s).map renderedEntry } := by
  unfold loadChatHistoryFromSession
  by_cases h : readChatHistory s = []
  · simp [h]
  · have hpos : (readChatHistory s).length > 0 := List.length_pos.mpr h
    simp only [hpos, if_true, h, if_false]
    rw [foldl_addChatMessageDirect]

theorem messageBubbles_append (a b : List ChatNode) :
    messageBubbles (a ++ b) = messageBubbles a ++ messageBubbles b := by
  simp [messageBubbles]

theorem messageBubbles_erase_welcome (a : List ChatNode) :
    messageBubbles (a.erase ChatNode.welcome) = messageBubbles a := by
  induction a with
  | nil => rfl
  | cons x xs ih =>
    by_cases hx : x = ChatNode.welcome
    · subst hx
      simp [messageBubbles]
    · have hb : (x == ChatNode.welcome) = false := by simpa using hx
      rw [List.erase_cons, hb]
      simp only [Bool.false_eq_true, if_false]
      unfold messageBubbles at ih ⊢
      simp only [List.filter_cons, ih]

theorem messageBubbles_map_renderedEntry (msgs : List ChatMessage) :
    messageBubbles (msgs.map renderedEntry) = msgs.map renderedEntry := by
  induction msgs with
  | nil => rfl
  | cons m ms ih =>
    unfold messageBubbles at ih ⊢
    simp only [List.map_cons, List.filter_cons, ih]
    simp [renderedEntry]

theorem loadChatHistoryFromSession_messageBubbles (s : State) :
    messageBubbles (loadChatHistoryFromSession s).chatArea =
      messageBubbles s.chatArea ++ (readChatHistory s).map renderedEntry := by
  rw [loadChatHistoryFromSession_eq]
  simp only [messageBubbles_append, messageBubbles_map_renderedEntry]
  split
  · rfl
  · rw [messageBubbles_erase_welcome]

theorem loadChatHistoryFromSession_chatHistory (s : State) :
    (loadChatHistoryFromSession s).chatHistory = s.chatHistory := by
  rw [loadChatHistoryFromSession_eq]

theorem formatMessage_append (a b : String) :
    formatMessage (a ++ b) = formatMessage a ++ formatMessage b := by
  apply String.ext
  simp [formatMessage, List.flatMap_append]

theorem formatMessage_no_line_break (content : String)
    (h : ∀ c ∈ content.data, c.toNat ≠ 10) : formatMessage content = content := by
  apply String.ext
  show (content.data.flatMap fun c => if c.toNat = 10 then "<br>".data else [c]) = content.data
  generalize content.data = l at h
  induction l with
  | nil => rfl
  | cons x xs ih =>
    have hx : x.toNat ≠ 10 := h x (List.mem_cons_self _ _)
    have hxs := ih (fun c hc => h c (List.mem_cons_of_mem _ hc))
    simp only [List.flatMap_cons, hx, if_false, hxs]
    rfl

/-- C2: `loadChatHistoryFromSession` changes nothing but the chat area, to which it adds
one bubble per persisted entry, in stored order (after removing the welcome placeholder
when there is an entry); the persisted transcript and the remote calls are as before.
The bubble of an entry carries the entry's sender, its time, the badge of a spoken or
facial user turn, and its content with every line break written `<br>` and every other
character as stored: content without a line break is shown as it is, and the rendering
of a concatenation is the concatenation of the renderings.  On the sample page the two
stored turns become the two bubbles written out below. -/
theorem loadChatHistoryFromSession_renders_entries (s : State) :
    (loadChatHistoryFromSession s).chatHistory = s.chatHistory ∧
    readChatHistory (loadChatHistoryFromSession s) = readChatHistory s ∧
    (loadChatHistoryFromSession s).chatArea =
      (if readChatHistory s = [] then s.chatArea else s.chatArea.erase ChatNode.welcome) ++
        (readChatHistory s).map renderedEntry ∧
    messageBubbles (loadChatHistoryFromSession s).chatArea =
      messageBubbles s.chatArea ++ (readChatHistory s).map renderedEntry ∧
    (loadChatHistoryFromSession s).remoteCalls = s.remoteCalls ∧
    loadChatHistoryFromSession s =
      { s with chatArea := (loadChatHistoryFromSession s).chatArea } ∧
    (∀ m : ChatMessage,
      renderedEntry m =
        ChatNode.message m.sender (inputTypeIndicator m.sender m.inputType)
          (formatMessage m.content) (some m.timestamp)) ∧
    (∀ content : String, (∀ c ∈ content.data, c.toNat ≠ 10) →
      formatMessage content = content) ∧
    (∀ a b : String, formatMessage (a ++ b) = formatMessage a ++ formatMessage b) ∧
    formatMessage "\n" = "<br>" ∧
    (∀ inputType : InputType, inputTypeIndicator Sender.therapist inputType = none) ∧
    inputTypeIndicator Sender.user InputType.text = none ∧
    inputTypeIndicator Sender.user InputType.voice = some "fas fa-microphone text-success" ∧
    inputTypeIndicator Sender.user InputType.facial = some "fas fa-camera text-warning" ∧
    (loadChatHistoryFromSession hydrationSample).chatArea =
      [ChatNode.message Sender.user (some "fas fa-microphone text-success")
          "I feel<br>anxious" (some "2024-01-01T00:00:00.000Z"),
        ChatNode.message Sender.therapist none "I hear you."
          (some "2024-01-01T00:00:01.000Z")] ∧
    (loadChatHistoryFromSession hydrationSample).chatHistory = hydrationSample.chatHistory := by
  refine ⟨loadChatHistoryFromSession_chatHistory s, ?_, ?_,
    loadChatHistoryFromSession_messageBubbles s, ?_, ?_, fun _ => rfl,
    formatMessage_no_line_break, formatMessage_append, by decide, ?_, by decide, by decide,
    by decide, by decide, by decide⟩
  · simp only [readChatHistory, loadChatHistoryFromSession_chatHistory]
  · rw [loadChatHistoryFromSession_eq]
  · rw [loadChatHistoryFromSession_eq]
  · rw [loadChatHistoryFromSession_eq]
  · intro inputType
    cases inputType <;> decide

/-- C2, at the sample page and at a content of one line. -/
theorem loadChatHistoryFromSession_renders_entries_witness :
    (∀ c ∈ "I hear you.".data, c.toNat ≠ 10) ∧
    formatMessage "I hear you." = "I hear you." ∧
    (loadChatHistoryFromSession hydrationSample).chatArea =
      [ChatNode.message Sender.user (some "fas fa-microphone text-success")
          "I feel<br>anxious" (some "2024-01-01T00:00:00.000Z"),
        ChatNode.message Sender.therapist none "I hear you."
          (some "2024-01-01T00:00:01.000Z")] :=
  ⟨by decide,
    (loadChatHistoryFromSession_renders_entries hydrationSample).2.2.2.2.2.2.2.1
      "I hear you." (by decide),
    (loadChatHistoryFromSession_renders_entries hydrationSample).2.2.2.2.2.2.2.2.2.2.2.2.2.2.1⟩

/-- C3 fails for the rendered chat: with one persisted entry, a second
`loadChatHistoryFromSession` leaves two bubbles where one call leaves one. -/
theorem loadChatHistoryFromSession_twice_differs :
    (loadChatHistoryFromSession
        (loadChatHistoryFromSession { chatHistory := some [sampleEntry 0] })).chatArea
      = [renderedEntry (sampleEntry 0), renderedEntry (sampleEntry 0)] ∧
    (loadChatHistoryFromSession { chatHistory := some [sampleEntry 0] }).chatArea
      = [renderedEntry (sampleEntry 0)] ∧
    loadChatHistoryFromSession
        (loadChatHistoryFromSession { chatHistory := some [sampleEntry 0] })
      ≠ loadChatHistoryFromSession { chatHistory := some [sampleEntry 0] } := by
  decide

/-- C3 as amended: a second `loadChatHistoryFromSession` leaves the persisted transcript
as the first left it, and renders every entry once more after the bubbles already
there; the chat area is as after one call exactly when the transcript is empty. -/
theorem loadChatHistoryFromSession_twice (s : State) :
    (loadChatHistoryFromSession (loadChatHistoryFromSession s)).chatHistory =
      (loadChatHistoryFromSession s).chatHistory ∧
    (loadChatHistoryFromSession s).chatHistory = s.chatHistory ∧
    messageBubbles (loadChatHistoryFromSession (loadChatHistoryFromSession s)).chatArea =
      messageBubbles (loadChatHistoryFromSession s).chatArea ++
        (readChatHistory s).map renderedEntry ∧
    ((loadChatHistoryFromSession (loadChatHistoryFromSession s)).chatArea =
        (loadChatHistoryFromSession s).chatArea ↔ readChatHistory s = []) := by
  have h1 := loadChatHistoryFromSession_chatHistory s
  have h2 := loadChatHistoryFromSession_chatHistory (loadChatHistoryFromSession s)
  have hr : readChatHistory (loadChatHistoryFromSession s) = readChatHistory s := by
    simp only [readChatHistory, h1]
  have hb : messageBubbles (loadChatHistoryFromSession (loadChatHistoryFromSession s)).chatArea =
      messageBubbles (loadChatHistoryFromSession s).chatArea ++
        (readChatHistory s).map renderedEntry := by
    rw [loadChatHistoryFromSession_messageBubbles (loadChatHistoryFromSession s), hr]
  refine ⟨h2, h1, hb, ?_⟩
  constructor
  · intro h
    rw [h] at hb
    have hl := congrArg List.length hb
    simp only [List.length_append, List.length_map] at hl
    exact List.length_eq_zero.mp (by omega)
  · intro h
    have : loadChatHistoryFromSession s = s := by
      rw [loadChatHistoryFromSession_eq]; simp [h]
    rw [this, this]

/-! ## Mode switching -/

theorem voiceInitialize_sessions (s : State) (v : VoiceHandler) (h : s.voiceHandler = some v) :
    (voiceInitialize s v).currentMode = s.currentMode ∧
    voiceIdle (voiceInitialize s v) = voiceIdle s ∧
    cameraIdle (voiceInitialize s v) = cameraIdle s := by
  unfold voiceInitialize
  split <;> simp [voiceIdle, cameraIdle, h]

theorem cameraInitialize_sessions (s : State) (c : CameraHandler)
    (h : s.cameraHandler = some c) :
    (cameraInitialize s c).currentMode = s.currentMode ∧
    voiceIdle (cameraInitialize s c) = voiceIdle s ∧
    cameraIdle (cameraInitialize s c) = cameraIdle s := by
  unfold cameraInitialize
  split <;> simp [voiceIdle, cameraIdle, h]

/-- C4 fails: `switchMode` stops nothing.  From a state in which the voice handler is
recording and the camera is active, `switchMode('text')` leaves both capturing, and so
do `switchMode('voice')` for the camera and `switchMode('camera')` for the voice
session. -/
theorem switchMode_leaves_sessions_capturing :
    voiceIdle (switchMode capturingState Mode.text) = false ∧
    cameraIdle (switchMode capturingState Mode.text) = false ∧
    cameraIdle (switchMode capturingState Mode.voice) = false ∧
    voiceIdle (switchMode capturingState Mode.camera) = false := by
  decide

/-- C4 as amended: `switchMode(X)` sets `currentMode` to `X` and leaves each capture
session idle exactly when it was idle before: the `isRecording` flag of the voice
handler and the `isActive` flag, the stream and the auto-capture timer of the camera
handler are as before the call. -/
theorem switchMode_keeps_sessions (s : State) (mode : Mode) :
    (switchMode s mode).currentMode = mode ∧
    voiceIdle (switchMode s mode) = voiceIdle s ∧
    cameraIdle (switchMode s mode) = cameraIdle s ∧
    (switchMode s mode).voiceHandler.map (fun v => v.isRecording) =
      s.voiceHandler.map (fun v => v.isRecording) ∧
    (switchMode s mode).cameraHandler.map (fun c => (c.isActive, c.stream, c.captureInterval)) =
      s.cameraHandler.map (fun c => (c.isActive, c.stream, c.captureInterval)) := by
  unfold switchMode
  cases mode <;> cases hv : s.voiceHandler <;> cases hc : s.cameraHandler <;>
    simp [voiceIdle, cameraIdle, voiceInitialize, cameraInitialize, hv, hc] <;>
    split <;> simp [hv, hc]

/-! ## Text submission -/

theorem addChatMessage_some (s : State) (now c : String) (sender : Sender) (timestamp : TimeArg)
    (inputType : InputType) (h : timestamp ≠ TimeArg.invalid) :
    addChatMessage s now (some c) sender timestamp inputType =
      (appendMessage s ⟨c, sender, timestamp.iso now, inputType⟩, none) := by
  cases timestamp with
  | invalid => exact absurd rfl h
  | absent => rfl
  | valid iso => rfl

theorem sendTextMessage_start_guard (s : State) (now : String)
    (h : jsTrim s.textInput = "" ∨ s.isProcessing = true) :
    sendTextMessageStart s now = ((s, none), false) ∧
    ∀ (later : String) (outcome : FetchOutcome), sendTextMessage s now later outcome = (s, none) := by
  have hs : sendTextMessageStart s now = ((s, none), false) := by
    unfold sendTextMessageStart
    simp only [h, if_true]
  refine ⟨hs, ?_⟩
  intro later outcome
  unfold sendTextMessage
  rw [hs]

theorem sendTextMessageStart_accept (s : State) (now : String)
    (h : ¬ (jsTrim s.textInput = "" ∨ s.isProcessing = true)) :
    sendTextMessageStart s now =
      (({ appendMessage (showProcessingState { s with isProcessing := true })
            ⟨jsTrim s.textInput, Sender.user, now, InputType.text⟩ with
          textInput := ""
          remoteCalls := s.remoteCalls ++
            [⟨"/analyze_text", RequestBody.text (jsTrim s.textInput)⟩] }, none), true) := by
  unfold sendTextMessageStart
  simp only [h, if_false]
  rw [addChatMessage_some _ _ _ _ _ _ (by decide)]
  rfl

theorem sendTextMessageSettle_isProcessing (r : Step) (now : String) :
    (sendTextMessageSettle r now).1.isProcessing = false := by
  simp [sendTextMessageSettle, hideProcessingState]

/-- C5: when the input is empty after trimming or `isProcessing` is true,
`sendTextMessage` returns at once in the state it was called in: no remote call is
issued, nothing is added to the transcript or the chat, and `currentMode` and
`isProcessing` are as before. -/
theorem sendTextMessage_guard (s : State) (now later : String) (outcome : FetchOutcome)
    (h : jsTrim s.textInput = "" ∨ s.isProcessing = true) :
    sendTextMessageStart s now = ((s, none), false) ∧
    sendTextMessage s now later outcome = (s, none) ∧
    (sendTextMessage s now later outcome).1.remoteCalls = s.remoteCalls ∧
    (sendTextMessage s now later outcome).1.chatHistory = s.chatHistory ∧
    (sendTextMessage s now later outcome).1.chatArea = s.chatArea ∧
    (sendTextMessage s now later outcome).1.currentMode = s.currentMode ∧
    (sendTextMessage s now later outcome).1.isProcessing = s.isProcessing := by
  have hs : sendTextMessageStart s now = ((s, none), false) := by
    unfold sendTextMessageStart
    simp only [h, if_true]
  have hm : sendTextMessage s now later outcome = (s, none) := by
    unfold sendTextMessage
    rw [hs]
  simp [hs, hm]

/-- C5, at a blank input and at a pending request. -/
theorem sendTextMessage_guard_witness :
    (jsTrim ({ textInput := "  " } : State).textInput = "" ∨
      ({ textInput := "  " } : State).isProcessing = true) ∧
    sendTextMessage { textInput := "  " } "t0" "t1" FetchOutcome.notOk =
      ({ textInput := "  " }, none) ∧
    sendTextMessage outstandingTextState "t0" "t1" FetchOutcome.notOk =
      (outstandingTextState, none) :=
  ⟨by decide,
    (sendTextMessage_guard { textInput := "  " } "t0" "t1" FetchOutcome.notOk (by decide)).2.1,
    (sendTextMessage_guard outstandingTextState "t0" "t1" FetchOutcome.notOk (by decide)).2.1⟩

/-- C6 fails for a call made while a request is outstanding: the call returns at the
guard and `isProcessing` is still true after it. -/
theorem sendTextMessage_leaves_isProcessing_set :
    outstandingTextState.isProcessing = true ∧
    jsTrim outstandingTextState.textInput ≠ "" ∧
    (sendTextMessage outstandingTextState "2024-01-01T00:00:01.000Z" "2024-01-01T00:00:02.000Z"
      FetchOutcome.notOk).1.isProcessing = true := by
  decide

/-- C6 as amended: a call to `sendTextMessage` made while `isProcessing` is false ends
with `isProcessing` false, whether the analysis succeeds, the server answers with a
non-success status, the transport fails or result handling throws; and whatever state
the page is in when an accepted call's request settles, `isProcessing` is false once the
call has finished. -/
theorem sendTextMessage_resets_isProcessing (s : State) (now later : String)
    (outcome : FetchOutcome) (h : s.isProcessing = false) :
    (sendTextMessage s now later outcome).1.isProcessing = false ∧
    ∀ s1 : State, (sendTextMessageResume s1 later outcome).1.isProcessing = false := by
  have hr : ∀ s1 : State, (sendTextMessageResume s1 later outcome).1.isProcessing = false := by
    intro s1
    unfold sendTextMessageResume
    split <;> exact sendTextMessageSettle_isProcessing _ _
  refine ⟨?_, hr⟩
  by_cases hg : jsTrim s.textInput = "" ∨ s.isProcessing = true
  · rw [(sendTextMessage_start_guard s now hg).2 later outcome]; exact h
  · unfold sendTextMessage
    rw [sendTextMessageStart_accept s now hg]
    exact hr _

/-- C6 as amended, at a submission whose response body lacks `therapy_response`. -/
theorem sendTextMessage_resets_isProcessing_witness :
    ({ textInput := "I feel anxious today" } : State).isProcessing = false ∧
    (sendTextMessage { textInput := "I feel anxious today" } "t0" "t1"
      (FetchOutcome.ok { therapy_response := none, emotion := none })).1.isProcessing = false :=
  ⟨by decide,
    (sendTextMessage_resets_isProcessing { textInput := "I feel anxious today" } "t0" "t1"
      (FetchOutcome.ok { therapy_response := none, emotion := none }) (by decide)).1⟩

/-! ## Result handling -/

theorem storeMessageInSession_chatHistory_congr (s1 s2 : State) (h : s1.chatHistory = s2.chatHistory)
    (content : String) (sender : Sender) (timestamp : String) (inputType : InputType) :
    (storeMessageInSession s1 content sender timestamp inputType).chatHistory =
      (storeMessageInSession s2 content sender timestamp inputType).chatHistory := by
  simp [storeMessageInSession, readChatHistory, h]

theorem storeAll_chatHistory_congr (ms : List ChatMessage) :
    ∀ s1 s2 : State, s1.chatHistory = s2.chatHistory →
      (storeAll s1 ms).chatHistory = (storeAll s2 ms).chatHistory := by
  induction ms with
  | nil => intro s1 s2 h; exact h
  | cons m ms ih =>
    intro s1 s2 h
    exact ih _ _ (storeMessageInSession_chatHistory_congr s1 s2 h _ _ _ _)

theorem storeAll_append (s : State) (a b : List ChatMessage) :
    storeAll s (a ++ b) = storeAll (storeAll s a) b := by
  simp [storeAll, List.foldl_append]

theorem appendMessage_chatHistory (s s0 : State) (m : ChatMessage) (ms : List ChatMessage)
    (h : s.chatHistory = (storeAll s0 ms).chatHistory) :
    (appendMessage s m).chatHistory = (storeAll s0 (ms ++ [m])).chatHistory := by
  rw [storeAll_append]
  exact storeMessageInSession_chatHistory_congr _ _ h _ _ _ _

theorem appendMessage_messageBubbles (s : State) (m : ChatMessage) :
    messageBubbles (appendMessage s m).chatArea = messageBubbles s.chatArea ++ [renderedEntry m] := by
  show messageBubbles ((s.chatArea ++ [renderedEntry m]).erase ChatNode.welcome) = _
  rw [messageBubbles_erase_welcome, messageBubbles_append]
  congr 1

theorem handleEmotionResult_wellFormed (s : State) (now : String) (r : EmotionResult)
    (h : r.wellFormed = true) :
    (handleEmotionResult s now r).2 = none ∧
    (handleEmotionResult s now r).1.chatHistory =
      (appendMessage s (therapistReply r now)).chatHistory ∧
    (handleEmotionResult s now r).1.chatArea = (appendMessage s (therapistReply r now)).chatArea ∧
    (handleEmotionResult s now r).1.remoteCalls = s.remoteCalls := by
  obtain ⟨tr, emotion, pct, ts⟩ := r
  cases tr with
  | none => simp [EmotionResult.wellFormed] at h
  | some tr =>
    obtain ⟨full, remedies⟩ := tr
    cases full with
    | none => simp [EmotionResult.wellFormed] at h
    | some full =>
      cases emotion with
      | none => simp [EmotionResult.wellFormed] at h
      | some e =>
        have hts : ts ≠ TimeArg.invalid := by
          simpa [EmotionResult.wellFormed] using h
        simp only [handleEmotionResult, addChatMessage_some _ _ _ _ _ _ hts, updateEmotionDisplay,
          updateQuickRemedies, speakResponse, therapistReply, EmotionResult.fullResponse,
          Option.getD_some]
        exact ⟨trivial, trivial, trivial, rfl⟩

theorem userBubbles_append (a b : List ChatNode) :
    userBubbles (a ++ b) = userBubbles a ++ userBubbles b := by
  simp [userBubbles]

theorem userBubbles_erase_welcome (a : List ChatNode) :
    userBubbles (a.erase ChatNode.welcome) = userBubbles a := by
  induction a with
  | nil => rfl
  | cons x xs ih =>
    by_cases hx : x = ChatNode.welcome
    · subst hx
      simp [userBubbles]
    · have hb : (x == ChatNode.welcome) = false := by simpa using hx
      rw [List.erase_cons, hb]
      simp only [Bool.false_eq_true, if_false]
      unfold userBubbles at ih ⊢
      simp only [List.filter_cons, ih]

theorem appendMessage_userBubbles (s : State) (m : ChatMessage) :
    userBubbles (appendMessage s m).chatArea =
      userBubbles s.chatArea ++ userBubbles [renderedEntry m] := by
  show userBubbles ((s.chatArea ++ [renderedEntry m]).erase ChatNode.welcome) = _
  rw [userBubbles_erase_welcome, userBubbles_append]

theorem userBubbles_therapist (m : ChatMessage) (h : m.sender = Sender.therapist) :
    userBubbles [renderedEntry m] = [] := by
  simp [userBubbles, renderedEntry, h]

theorem onlyTherapistTurns_refl (s : State) : OnlyTherapistTurns 0 s s :=
  ⟨⟨[], Nat.le_refl _, by simp, rfl⟩, rfl⟩

theorem onlyTherapistTurns_of_eq {s t : State} (n : Nat) (h1 : t.chatHistory = s.chatHistory)
    (h2 : t.chatArea = s.chatArea) : OnlyTherapistTurns n s t :=
  ⟨⟨[], Nat.zero_le _, by simp, h1⟩, by rw [h2]⟩

theorem onlyTherapistTurns_mono {n k : Nat} {s t : State} (h : OnlyTherapistTurns n s t)
    (hk : n ≤ k) : OnlyTherapistTurns k s t := by
  obtain ⟨⟨ms, hl, ht, hh⟩, hb⟩ := h
  exact ⟨⟨ms, Nat.le_trans hl hk, ht, hh⟩, hb⟩

theorem onlyTherapistTurns_trans {n k : Nat} {s t u : State} (h1 : OnlyTherapistTurns n s t)
    (h2 : OnlyTherapistTurns k t u) : OnlyTherapistTurns (n + k) s u := by
  obtain ⟨⟨ms1, hl1, ht1, hh1⟩, hb1⟩ := h1
  obtain ⟨⟨ms2, hl2, ht2, hh2⟩, hb2⟩ := h2
  refine ⟨⟨ms1 ++ ms2, ?_, ?_, ?_⟩, hb2.trans hb1⟩
  · rw [List.length_append]; omega
  · intro m hm
    rcases List.mem_append.mp hm with hm | hm
    · exact ht1 m hm
    · exact ht2 m hm
  · rw [hh2, storeAll_append]
    exact storeAll_chatHistory_congr ms2 _ _ hh1

theorem onlyTherapistTurns_appendMessage (s : State) (m : ChatMessage)
    (h : m.sender = Sender.therapist) : OnlyTherapistTurns 1 s (appendMessage s m) := by
  refine ⟨⟨[m], Nat.le_refl _, ?_, rfl⟩, ?_⟩
  · intro x hx
    rw [List.mem_singleton.mp hx]; exact h
  · rw [appendMessage_userBubbles, userBubbles_therapist m h, List.append_nil]

theorem showError_eq (s : State) (now message : String) :
    showError s now message = (appendMessage s (errorTurn message now), none) :=
  addChatMessage_some s now message Sender.therapist TimeArg.absent InputType.text (by decide)

theorem handleEmotionResult_turns (s : State) (now : String) (r : EmotionResult) :
    OnlyTherapistTurns 1 s (handleEmotionResult s now r).1 ∧
    (handleEmotionResult s now r).1.remoteCalls = s.remoteCalls := by
  obtain ⟨tr, emotion, pct, ts⟩ := r
  cases tr with
  | none => exact ⟨onlyTherapistTurns_of_eq 1 rfl rfl, rfl⟩
  | some tr =>
    obtain ⟨full, remedies⟩ := tr
    cases full with
    | none => exact ⟨onlyTherapistTurns_of_eq 1 rfl rfl, rfl⟩
    | some full =>
      by_cases hts : ts = TimeArg.invalid
      · subst hts
        refine ⟨⟨⟨[], Nat.zero_le _, by simp, rfl⟩, ?_⟩, rfl⟩
        show userBubbles (s.chatArea ++ _) = _
        rw [userBubbles_append]
        simp [userBubbles]
      · have hm : OnlyTherapistTurns 1 s
            (appendMessage s ⟨full, Sender.therapist, ts.iso now, InputType.text⟩) :=
          onlyTherapistTurns_appendMessage s _ rfl
        cases emotion with
        | none =>
          simp only [handleEmotionResult, addChatMessage_some _ _ _ _ _ _ hts, updateEmotionDisplay]
          exact ⟨hm, rfl⟩
        | some e =>
          simp only [handleEmotionResult, addChatMessage_some _ _ _ _ _ _ hts, updateEmotionDisplay,
            updateQuickRemedies, speakResponse]
          exact ⟨hm, rfl⟩

theorem handleEmotionResult_wellFormed_eq (s : State) (now : String) (r : EmotionResult)
    (h : r.wellFormed = true) :
    handleEmotionResult s now r = ((handleEmotionResult s now r).1, none) :=
  Prod.ext rfl (handleEmotionResult_wellFormed s now r h).1

theorem wellFormed_fullResponse (r : EmotionResult) (h : r.wellFormed = true) :
    r.therapy_response.bind (fun tr => tr.full_response) = some r.fullResponse := by
  obtain ⟨tr, emotion, pct, ts⟩ := r
  cases tr with
  | none => simp [EmotionResult.wellFormed] at h
  | some tr =>
    obtain ⟨full, remedies⟩ := tr
    cases full with
    | none => simp [EmotionResult.wellFormed] at h
    | some full => rfl

/-! ## The three analysis handlers -/

theorem stored_of_eq {s t : State} (h1 : t.chatHistory = s.chatHistory)
    (h2 : t.chatArea = s.chatArea) : Stored s t [] :=
  ⟨h1, by rw [h2]; simp⟩

theorem stored_step {s t u : State} {ms : List ChatMessage} (m : ChatMessage)
    (h : Stored s t ms) (h1 : u.chatHistory = (appendMessage t m).chatHistory)
    (h2 : u.chatArea = (appendMessage t m).chatArea) : Stored s u (ms ++ [m]) := by
  refine ⟨?_, ?_⟩
  · rw [h1]; exact appendMessage_chatHistory t s m ms h.1
  · rw [h2, appendMessage_messageBubbles, h.2]; simp

theorem stored_handleEmotionResult {s t : State} {ms : List ChatMessage} (now : String)
    (r : EmotionResult) (hr : r.wellFormed = true) (h : Stored s t ms) :
    Stored s (handleEmotionResult t now r).1 (ms ++ [therapistReply r now]) :=
  stored_step _ h (handleEmotionResult_wellFormed t now r hr).2.1
    (handleEmotionResult_wellFormed t now r hr).2.2.1

theorem sendTextMessageResume_failure (s : State) (now : String) (o : FetchOutcome)
    (ho : o.isFailure = true) :
    sendTextMessageResume s now o =
      (hideProcessingState
        { appendMessage s (errorTurn textApology now) with isProcessing := false }, none) := by
  cases o <;>
    first
    | (simp [FetchOutcome.isFailure] at ho; done)
    | simp [sendTextMessageResume, awaitResult, sendTextMessageSettle, showError_eq]

theorem processVoiceInputStart_accept (s : State) (now transcript : String)
    (h : jsTrim transcript ≠ "") :
    processVoiceInputStart s now transcript =
      (({ appendMessage (updateVoiceStatus s "Analyzing your voice...")
            (userTurn transcript now InputType.voice) with
          remoteCalls := s.remoteCalls ++ [⟨"/analyze_voice", RequestBody.voice transcript⟩] },
        none), true) := by
  unfold processVoiceInputStart
  simp only [h, if_false]
  rw [addChatMessage_some _ _ _ _ _ _ (by decide)]
  rfl

theorem processVoiceInputCatch_eq (s : State) (now : String) :
    processVoiceInputCatch s now =
      (appendMessage (updateVoiceStatus s "Error analyzing voice. Please try again.")
        (errorTurn voiceApology now), none) := by
  simp [processVoiceInputCatch, showError_eq]

theorem processVoiceInputResume_failure (s : State) (now : String) (o : FetchOutcome)
    (ho : o.isFailure = true) :
    processVoiceInputResume s now o = processVoiceInputCatch s now := by
  cases o <;>
    first
    | (simp [FetchOutcome.isFailure] at ho; done)
    | simp [processVoiceInputResume, awaitResult]

theorem processVoiceInputResume_success (s : State) (now : String) (r : EmotionResult)
    (hr : r.wellFormed = true) :
    processVoiceInputResume s now (FetchOutcome.ok r) =
      (updateVoiceStatus (handleEmotionResult s now r).1 "Click to start voice recording",
        none) := by
  simp only [processVoiceInputResume, awaitResult]
  rw [handleEmotionResult_wellFormed_eq s now r hr]

theorem captureExpressionStart_ready (s : State) (isAutoCapture : Bool) (imageDataUrl : String)
    (h : cameraReady s = true) :
    captureExpressionStart s isAutoCapture imageDataUrl =
      (({ (if !isAutoCapture then updateCameraStatus s "Analyzing facial expression..." else s) with
          remoteCalls := s.remoteCalls ++
            [⟨"/analyze_facial", RequestBody.facial imageDataUrl⟩] }, none), true) := by
  unfold captureExpressionStart
  unfold cameraReady at h
  cases hc : s.cameraHandler with
  | none => simp [hc] at h
  | some cam =>
    simp only [hc, Bool.and_eq_true] at h
    simp only [h.1.1, h.1.2, h.2]
    cases isAutoCapture <;> rfl

theorem captureExpressionCatch_eq (s : State) (now : String) :
    captureExpressionCatch s now =
      (appendMessage (updateCameraStatus s "Error analyzing expression. Please try again.")
        (errorTurn facialApology now), none) := by
  simp [captureExpressionCatch, showError_eq]

theorem captureExpressionResume_failure (s : State) (now : String) (isAutoCapture : Bool)
    (o : FetchOutcome) (ho : o.isFailure = true) :
    captureExpressionResume s now isAutoCapture o = captureExpressionCatch s now := by
  cases o <;>
    first
    | (simp [FetchOutcome.isFailure] at ho; done)
    | simp [captureExpressionResume, awaitResult]

theorem captureExpressionResume_manual_success (s : State) (now : String) (r : EmotionResult)
    (hr : r.wellFormed = true) :
    captureExpressionResume s now false (FetchOutcome.ok r) =
      (updateCameraStatus
        (handleEmotionResult (appendMessage s (userTurn facialLabel now InputType.facial)) now r).1
        "Expression analyzed! Camera continues monitoring...", none) := by
  simp only [captureExpressionResume, awaitResult, Bool.not_false, if_true]
  rw [addChatMessage_some _ _ _ _ _ _ (by decide)]
  simp only []
  have := handleEmotionResult_wellFormed_eq
    (appendMessage s (userTurn facialLabel now InputType.facial)) now r hr
  simp only [userTurn, TimeArg.iso] at this ⊢
  rw [this]

theorem userMessages_storeMessageInSession (s : State) (content : String) (timestamp : String)
    (inputType : InputType) :
    userMessages (readChatHistory
        (storeMessageInSession s content Sender.therapist timestamp inputType)) <:+
      userMessages (readChatHistory s) := by
  rw [readChatHistory_storeMessageInSession]
  have h1 : userMessages (readChatHistory s ++
      [ChatMessage.mk content Sender.therapist timestamp inputType]) =
      userMessages (readChatHistory s) := by
    simp [userMessages]
  rw [← h1]
  exact (List.drop_suffix _ _).filter _

theorem userMessages_storeAll (ms : List ChatMessage) :
    ∀ s : State, (∀ m ∈ ms, m.sender = Sender.therapist) →
      userMessages (readChatHistory (storeAll s ms)) <:+ userMessages (readChatHistory s) := by
  induction ms with
  | nil => intro s _; exact List.suffix_refl _
  | cons m ms ih =>
    intro s h
    have hm : m.sender = Sender.therapist := h m (List.mem_cons_self _ _)
    have h1 := ih (storeMessageInSession s m.content m.sender m.timestamp m.inputType)
      (fun x hx => h x (List.mem_cons_of_mem _ hx))
    refine h1.trans ?_
    rw [hm]
    exact userMessages_storeMessageInSession s _ _ _

theorem onlyTherapistTurns_userMessages_suffix {n : Nat} {s t : State}
    (h : OnlyTherapistTurns n s t) :
    userMessages (readChatHistory t) <:+ userMessages (readChatHistory s) := by
  obtain ⟨⟨ms, _, ht, hh⟩, _⟩ := h
  have : readChatHistory t = readChatHistory (storeAll s ms) := by
    simp only [readChatHistory, hh]
  rw [this]
  exact userMessages_storeAll ms s ht

theorem captureExpressionCatch_turns (s : State) (now : String) :
    OnlyTherapistTurns 1 s (captureExpressionCatch s now).1 := by
  rw [captureExpressionCatch_eq]
  have h0 : OnlyTherapistTurns 0 s
      (updateCameraStatus s "Error analyzing expression. Please try again.") :=
    onlyTherapistTurns_of_eq 0 rfl rfl
  exact onlyTherapistTurns_mono
    (onlyTherapistTurns_trans h0 (onlyTherapistTurns_appendMessage _ (errorTurn facialApology now) rfl))
    (by omega)

theorem captureExpressionResume_auto_turns (s : State) (now : String) (outcome : FetchOutcome) :
    OnlyTherapistTurns 2 s (captureExpressionResume s now true outcome).1 := by
  cases outcome with
  | ok r =>
    simp only [captureExpressionResume, awaitResult, Bool.not_true, Bool.false_eq_true, if_false]
    have h1 := (handleEmotionResult_turns s now r).1
    rcases hres : handleEmotionResult s now r with ⟨s2, _ | e⟩
    · rw [hres] at h1
      exact onlyTherapistTurns_mono h1 (by omega)
    · rw [hres] at h1
      exact onlyTherapistTurns_trans h1 (captureExpressionCatch_turns s2 now)
  | transportFailure =>
    exact onlyTherapistTurns_mono (captureExpressionCatch_turns s now) (by omega)
  | notOk =>
    exact onlyTherapistTurns_mono (captureExpressionCatch_turns s now) (by omega)
  | badJson =>
    exact onlyTherapistTurns_mono (captureExpressionCatch_turns s now) (by omega)

theorem captureExpression_auto_turns (s : State) (now imageDataUrl : String)
    (outcome : FetchOutcome) :
    OnlyTherapistTurns 2 s (captureExpression s now true imageDataUrl outcome).1 := by
  by_cases h : cameraReady s = true
  · unfold captureExpression
    rw [captureExpressionStart_ready s true imageDataUrl h]
    have h0 : OnlyTherapistTurns 0 s
        { s with remoteCalls := s.remoteCalls ++
          [⟨"/analyze_facial", RequestBody.facial imageDataUrl⟩] } :=
      onlyTherapistTurns_of_eq 0 rfl rfl
    exact onlyTherapistTurns_mono (onlyTherapistTurns_trans h0 (captureExpressionResume_auto_turns _ now outcome)) (by omega)
  · have hs : captureExpressionStart s true imageDataUrl = ((s, none), false) := by
      unfold captureExpressionStart
      unfold cameraReady at h
      cases hc : s.cameraHandler with
      | none => rfl
      | some cam =>
        simp only [hc] at h
        have : (!cam.isActive || !cam.video || !cam.canvas) = true := by
          cases h1 : cam.isActive <;> cases h2 : cam.video <;> cases h3 : cam.canvas <;>
            simp_all
        simp only [this, if_true]
    unfold captureExpression
    rw [hs]
    exact onlyTherapistTurns_of_eq 2 rfl rfl

/-- C9: an auto-triggered capture stores no user turn, whatever the camera state and
however the request settles.  `captureExpression(true)`, the call the auto-capture timer
makes, stores at most two entries, all of them therapist turns, and adds no user bubble;
the user-sender entries of the transcript after it are those before it, less any the
50-entry cap evicted.  The same holds from whatever state the page is in when the
request settles. -/
theorem autoCapture_appends_no_user_turn (s : State) (now imageDataUrl : String)
    (outcome : FetchOutcome) :
    autoCaptureTick s now imageDataUrl outcome =
      captureExpression s now true imageDataUrl outcome ∧
    OnlyTherapistTurns 2 s (autoCaptureTick s now imageDataUrl outcome).1 ∧
    userMessages (readChatHistory (autoCaptureTick s now imageDataUrl outcome).1) <:+
      userMessages (readChatHistory s) ∧
    userBubbles (autoCaptureTick s now imageDataUrl outcome).1.chatArea =
      userBubbles s.chatArea ∧
    ∀ s1 : State, OnlyTherapistTurns 2 s1 (captureExpressionResume s1 now true outcome).1 := by
  have h := captureExpression_auto_turns s now imageDataUrl outcome
  exact ⟨rfl, h, onlyTherapistTurns_userMessages_suffix h, h.2,
    fun s1 => captureExpressionResume_auto_turns s1 now outcome⟩

theorem sendTextMessage_ok_exchange (s : State) (now later : String) (r : EmotionResult)
    (h1 : jsTrim s.textInput ≠ "") (h2 : s.isProcessing = false) (hr : r.wellFormed = true) :
    Exchange s (sendTextMessage s now later (FetchOutcome.ok r))
      [userTurn (jsTrim s.textInput) now InputType.text, therapistReply r later]
      ⟨"/analyze_text", RequestBody.text (jsTrim s.textInput)⟩ := by
  have hg : ¬ (jsTrim s.textInput = "" ∨ s.isProcessing = true) := by
    simp [h1, h2]
  unfold sendTextMessage
  rw [sendTextMessageStart_accept s now hg]
  simp only [sendTextMessageResume, awaitResult]
  rw [handleEmotionResult_wellFormed_eq _ _ _ hr]
  simp only [sendTextMessageSettle, hideProcessingState]
  have h0 : Stored s s [] := stored_of_eq rfl rfl
  have hu := stored_step (userTurn (jsTrim s.textInput) now InputType.text) h0
    (u := { appendMessage (showProcessingState { s with isProcessing := true })
        (userTurn (jsTrim s.textInput) now InputType.text) with
      textInput := ""
      remoteCalls := s.remoteCalls ++
        [⟨"/analyze_text", RequestBody.text (jsTrim s.textInput)⟩] }) rfl rfl
  have ht := stored_handleEmotionResult later r hr hu
  exact ⟨⟨ht.1, ht.2⟩, (handleEmotionResult_wellFormed _ later r hr).2.2.2, rfl⟩

theorem sendTextMessage_failure_exchange (s : State) (now later : String) (o : FetchOutcome)
    (h1 : jsTrim s.textInput ≠ "") (h2 : s.isProcessing = false) (ho : o.isFailure = true) :
    Exchange s (sendTextMessage s now later o)
      [userTurn (jsTrim s.textInput) now InputType.text, errorTurn textApology later]
      ⟨"/analyze_text", RequestBody.text (jsTrim s.textInput)⟩ := by
  have hg : ¬ (jsTrim s.textInput = "" ∨ s.isProcessing = true) := by
    simp [h1, h2]
  unfold sendTextMessage
  rw [sendTextMessageStart_accept s now hg]
  simp only []
  rw [sendTextMessageResume_failure _ later o ho]
  have h0 : Stored s s [] := stored_of_eq rfl rfl
  have hu := stored_step (userTurn (jsTrim s.textInput) now InputType.text) h0
    (u := { appendMessage (showProcessingState { s with isProcessing := true })
        (userTurn (jsTrim s.textInput) now InputType.text) with
      textInput := ""
      remoteCalls := s.remoteCalls ++
        [⟨"/analyze_text", RequestBody.text (jsTrim s.textInput)⟩] }) rfl rfl
  exact ⟨stored_step (errorTurn textApology later) hu rfl rfl, rfl, rfl⟩

theorem processVoiceInput_ok_exchange (s : State) (now later transcript : String)
    (r : EmotionResult) (h : jsTrim transcript ≠ "") (hr : r.wellFormed = true) :
    Exchange s (processVoiceInput s now later transcript (FetchOutcome.ok r))
      [userTurn transcript now InputType.voice, therapistReply r later]
      ⟨"/analyze_voice", RequestBody.voice transcript⟩ := by
  unfold processVoiceInput
  rw [processVoiceInputStart_accept s now transcript h]
  simp only []
  rw [processVoiceInputResume_success _ later r hr]
  have h0 : Stored s s [] := stored_of_eq rfl rfl
  have hu := stored_step (userTurn transcript now InputType.voice) h0
    (u := { appendMessage (updateVoiceStatus s "Analyzing your voice...")
        (userTurn transcript now InputType.voice) with
      remoteCalls := s.remoteCalls ++ [⟨"/analyze_voice", RequestBody.voice transcript⟩] })
    rfl rfl
  have ht := stored_handleEmotionResult later r hr hu
  exact ⟨⟨ht.1, ht.2⟩, (handleEmotionResult_wellFormed _ later r hr).2.2.2, rfl⟩

theorem processVoiceInput_failure_exchange (s : State) (now later transcript : String)
    (o : FetchOutcome) (h : jsTrim transcript ≠ "") (ho : o.isFailure = true) :
    Exchange s (processVoiceInput s now later transcript o)
      [userTurn transcript now InputType.voice, errorTurn voiceApology later]
      ⟨"/analyze_voice", RequestBody.voice transcript⟩ := by
  unfold processVoiceInput
  rw [processVoiceInputStart_accept s now transcript h]
  simp only []
  rw [processVoiceInputResume_failure _ later o ho, processVoiceInputCatch_eq]
  have h0 : Stored s s [] := stored_of_eq rfl rfl
  have hu := stored_step (userTurn transcript now InputType.voice) h0
    (u := { appendMessage (updateVoiceStatus s "Analyzing your voice...")
        (userTurn transcript now InputType.voice) with
      remoteCalls := s.remoteCalls ++ [⟨"/analyze_voice", RequestBody.voice transcript⟩] })
    rfl rfl
  exact ⟨stored_step (errorTurn voiceApology later) hu rfl rfl, rfl, rfl⟩

theorem captureExpression_manual_ok_exchange (s : State) (now imageDataUrl : String)
    (r : EmotionResult) (h : cameraReady s = true) (hr : r.wellFormed = true) :
    Exchange s (captureExpression s now false imageDataUrl (FetchOutcome.ok r))
      [userTurn facialLabel now InputType.facial, therapistReply r now]
      ⟨"/analyze_facial", RequestBody.facial imageDataUrl⟩ := by
  unfold captureExpression
  rw [captureExpressionStart_ready s false imageDataUrl h]
  simp only []
  rw [captureExpressionResume_manual_success _ now r hr]
  have h0 : Stored s
      { (if !false then updateCameraStatus s "Analyzing facial expression..." else s) with
        remoteCalls := s.remoteCalls ++
          [⟨"/analyze_facial", RequestBody.facial imageDataUrl⟩] } [] :=
    stored_of_eq rfl rfl
  have hu := stored_step (userTurn facialLabel now InputType.facial) h0 rfl rfl
  have ht := stored_handleEmotionResult now r hr hu
  exact ⟨⟨ht.1, ht.2⟩, (handleEmotionResult_wellFormed _ now r hr).2.2.2, rfl⟩

theorem captureExpression_failure_exchange (s : State) (now imageDataUrl : String)
    (isAutoCapture : Bool) (o : FetchOutcome) (h : cameraReady s = true)
    (ho : o.isFailure = true) :
    Exchange s (captureExpression s now isAutoCapture imageDataUrl o)
      [errorTurn facialApology now]
      ⟨"/analyze_facial", RequestBody.facial imageDataUrl⟩ := by
  unfold captureExpression
  rw [captureExpressionStart_ready s isAutoCapture imageDataUrl h]
  simp only []
  rw [captureExpressionResume_failure _ now isAutoCapture o ho, captureExpressionCatch_eq]
  have h0 : Stored s
      { (if !isAutoCapture then updateCameraStatus s "Analyzing facial expression..." else s) with
        remoteCalls := s.remoteCalls ++
          [⟨"/analyze_facial", RequestBody.facial imageDataUrl⟩] } [] := by
    cases isAutoCapture <;> exact stored_of_eq rfl rfl
  exact ⟨stored_step (errorTurn facialApology now) h0 rfl rfl, by
    cases isAutoCapture <;> rfl, rfl⟩

/-- C7: an accepted text submission (non-empty after trimming, `isProcessing` false)
whose request returns a success response with a well-formed result `r` stores exactly
two entries, the user turn with `inputType` text and the trimmed text, then the therapist
turn with `r.therapy_response.full_response`; it shows their two bubbles in that order
and issues exactly one remote call, to `/analyze_text` with the trimmed text. -/
theorem sendTextMessage_success (s : State) (now later : String) (r : EmotionResult)
    (h1 : jsTrim s.textInput ≠ "") (h2 : s.isProcessing = false) (hr : r.wellFormed = true) :
    (sendTextMessage s now later (FetchOutcome.ok r)).1.chatHistory =
      (storeAll s [userTurn (jsTrim s.textInput) now InputType.text,
        therapistReply r later]).chatHistory ∧
    messageBubbles (sendTextMessage s now later (FetchOutcome.ok r)).1.chatArea =
      messageBubbles s.chatArea ++
        [renderedEntry (userTurn (jsTrim s.textInput) now InputType.text),
          renderedEntry (therapistReply r later)] ∧
    (sendTextMessage s now later (FetchOutcome.ok r)).1.remoteCalls =
      s.remoteCalls ++ [⟨"/analyze_text", RequestBody.text (jsTrim s.textInput)⟩] ∧
    (userTurn (jsTrim s.textInput) now InputType.text).sender = Sender.user ∧
    (userTurn (jsTrim s.textInput) now InputType.text).inputType = InputType.text ∧
    (therapistReply r later).sender = Sender.therapist ∧
    r.therapy_response.bind (fun tr => tr.full_response) =
      some (therapistReply r later).content ∧
    (sendTextMessage s now later (FetchOutcome.ok r)).2 = none := by
  obtain ⟨⟨hh, hb⟩, hc, he⟩ := sendTextMessage_ok_exchange s now later r h1 h2 hr
  exact ⟨hh, hb, hc, rfl, rfl, rfl, wellFormed_fullResponse r hr, he⟩

/-- C7, at the submission "I feel anxious today" answered with "I hear you.". -/
theorem sendTextMessage_success_witness :
    jsTrim ({ textInput := " I feel anxious today " } : State).textInput ≠ "" ∧
    ({ textInput := " I feel anxious today " } : State).isProcessing = false ∧
    (sendTextMessage { textInput := " I feel anxious today " } "t0" "t1"
      (FetchOutcome.ok
        { therapy_response := some { full_response := some "I hear you." },
          emotion := some "fear" })).1.remoteCalls =
      [⟨"/analyze_text", RequestBody.text "I feel anxious today"⟩] :=
  ⟨by decide, by decide,
    (sendTextMessage_success { textInput := " I feel anxious today " } "t0" "t1"
      { therapy_response := some { full_response := some "I hear you." },
        emotion := some "fear" } (by decide) (by decide) (by decide)).2.2.1⟩


/-- C8: in each modality the user turn a submission stores is followed by a therapist
turn.  An accepted text submission and a non-blank voice transcript store the user
turn and then the response text of a well-formed success result, or, when the request
fails (non-success status, transport failure, unparsable body), the modality's fixed
apology; a manual capture on an active camera stores its user turn and the response text
on success and only the apology on failure.  Each issues exactly one remote call and lets
no exception escape. -/
theorem user_turn_followed_by_therapist_turn (s : State)
    (now later transcript imageDataUrl : String) (r : EmotionResult) (o : FetchOutcome)
    (hr : r.wellFormed = true) (ho : o.isFailure = true) :
    (jsTrim s.textInput ≠ "" ∧ s.isProcessing = false →
      Exchange s (sendTextMessage s now later (FetchOutcome.ok r))
        [userTurn (jsTrim s.textInput) now InputType.text, therapistReply r later]
        ⟨"/analyze_text", RequestBody.text (jsTrim s.textInput)⟩ ∧
      Exchange s (sendTextMessage s now later o)
        [userTurn (jsTrim s.textInput) now InputType.text, errorTurn textApology later]
        ⟨"/analyze_text", RequestBody.text (jsTrim s.textInput)⟩) ∧
    (jsTrim transcript ≠ "" →
      Exchange s (processVoiceInput s now later transcript (FetchOutcome.ok r))
        [userTurn transcript now InputType.voice, therapistReply r later]
        ⟨"/analyze_voice", RequestBody.voice transcript⟩ ∧
      Exchange s (processVoiceInput s now later transcript o)
        [userTurn transcript now InputType.voice, errorTurn voiceApology later]
        ⟨"/analyze_voice", RequestBody.voice transcript⟩) ∧
    (cameraReady s = true →
      Exchange s (captureExpression s now false imageDataUrl (FetchOutcome.ok r))
        [userTurn facialLabel now InputType.facial, therapistReply r now]
        ⟨"/analyze_facial", RequestBody.facial imageDataUrl⟩ ∧
      Exchange s (captureExpression s now false imageDataUrl o)
        [errorTurn facialApology now]
        ⟨"/analyze_facial", RequestBody.facial imageDataUrl⟩) ∧
    (therapistReply r later).sender = Sender.therapist ∧
    (therapistReply r later).content = r.fullResponse ∧
    (∀ message : String, (errorTurn message later).sender = Sender.therapist ∧
      (errorTurn message later).content = message) :=
  ⟨fun h => ⟨sendTextMessage_ok_exchange s now later r h.1 h.2 hr,
      sendTextMessage_failure_exchange s now later o h.1 h.2 ho⟩,
    fun h => ⟨processVoiceInput_ok_exchange s now later transcript r h hr,
      processVoiceInput_failure_exchange s now later transcript o h ho⟩,
    fun h => ⟨captureExpression_manual_ok_exchange s now imageDataUrl r h hr,
      captureExpression_failure_exchange s now imageDataUrl false o h ho⟩,
    rfl, rfl, fun _ => ⟨rfl, rfl⟩⟩

/-- C8, at a state in which all three modalities accept a submission, for a non-success
response. -/
theorem user_turn_followed_by_therapist_turn_witness :
    sampleResult.wellFormed = true ∧ FetchOutcome.notOk.isFailure = true ∧
    (jsTrim readyState.textInput ≠ "" ∧ readyState.isProcessing = false) ∧
    jsTrim "I feel happy" ≠ "" ∧ cameraReady readyState = true ∧
    Exchange readyState (sendTextMessage readyState "t0" "t1" FetchOutcome.notOk)
      [userTurn (jsTrim readyState.textInput) "t0" InputType.text, errorTurn textApology "t1"]
      ⟨"/analyze_text", RequestBody.text (jsTrim readyState.textInput)⟩ ∧
    Exchange readyState (processVoiceInput readyState "t0" "t1" "I feel happy" FetchOutcome.notOk)
      [userTurn "I feel happy" "t0" InputType.voice, errorTurn voiceApology "t1"]
      ⟨"/analyze_voice", RequestBody.voice "I feel happy"⟩ ∧
    Exchange readyState
      (captureExpression readyState "t0" false "data:image/jpeg;base64,AA" FetchOutcome.notOk)
      [errorTurn facialApology "t0"]
      ⟨"/analyze_facial", RequestBody.facial "data:image/jpeg;base64,AA"⟩ :=
  ⟨by decide, by decide, by decide, by decide, by decide,
    ((user_turn_followed_by_therapist_turn readyState "t0" "t1" "I feel happy"
      "data:image/jpeg;base64,AA" sampleResult FetchOutcome.notOk (by decide) (by decide)).1
        (by decide)).2,
    ((user_turn_followed_by_therapist_turn readyState "t0" "t1" "I feel happy"
      "data:image/jpeg;base64,AA" sampleResult FetchOutcome.notOk (by decide) (by decide)).2.1
        (by decide)).2,
    ((user_turn_followed_by_therapist_turn readyState "t0" "t1" "I feel happy"
      "data:image/jpeg;base64,AA" sampleResult FetchOutcome.notOk (by decide) (by decide)).2.2.1
        (by decide)).2⟩

/-- C10 fails when the analysis fails: a manual capture on an active camera whose request
gets a non-success response, or fails in transport, stores the apology alone, and no
user turn. -/
theorem captureExpression_manual_failure_stores_no_user_turn :
    cameraReady readyState = true ∧
    readChatHistory
        (captureExpression readyState "t0" false "data:image/jpeg;base64,AA"
          FetchOutcome.notOk).1 = [errorTurn facialApology "t0"] ∧
    userMessages (readChatHistory
        (captureExpression readyState "t0" false "data:image/jpeg;base64,AA"
          FetchOutcome.notOk).1) = [] ∧
    userMessages (readChatHistory
        (captureExpression readyState "t0" false "data:image/jpeg;base64,AA"
          FetchOutcome.transportFailure).1) = [] ∧
    userBubbles
        (captureExpression readyState "t0" false "data:image/jpeg;base64,AA"
          FetchOutcome.notOk).1.chatArea = [] := by
  decide

/-- C10 as amended: a manual capture on an active camera (video and canvas elements
present) whose request returns a success response with a well-formed result stores
exactly one user turn, with `inputType` facial, followed by the therapist turn; when the
request fails (non-success status, transport failure, unparsable body) it stores the
apology alone, so no user turn. -/
theorem captureExpression_manual_user_turn (s : State) (now imageDataUrl : String)
    (r : EmotionResult) (o : FetchOutcome) (h : cameraReady s = true)
    (hr : r.wellFormed = true) (ho : o.isFailure = true) :
    Exchange s (captureExpression s now false imageDataUrl (FetchOutcome.ok r))
      [userTurn facialLabel now InputType.facial, therapistReply r now]
      ⟨"/analyze_facial", RequestBody.facial imageDataUrl⟩ ∧
    (userTurn facialLabel now InputType.facial).sender = Sender.user ∧
    (userTurn facialLabel now InputType.facial).inputType = InputType.facial ∧
    (therapistReply r now).sender = Sender.therapist ∧
    Exchange s (captureExpression s now false imageDataUrl o) [errorTurn facialApology now]
      ⟨"/analyze_facial", RequestBody.facial imageDataUrl⟩ ∧
    (errorTurn facialApology now).sender = Sender.therapist :=
  ⟨captureExpression_manual_ok_exchange s now imageDataUrl r h hr, rfl, rfl, rfl,
    captureExpression_failure_exchange s now imageDataUrl false o h ho, rfl⟩

/-- C10 as amended, at an active camera and a well-formed result. -/
theorem captureExpression_manual_user_turn_witness :
    cameraReady readyState = true ∧ sampleResult.wellFormed = true ∧
    FetchOutcome.badJson.isFailure = true ∧
    Exchange readyState
      (captureExpression readyState "t0" false "data:image/jpeg;base64,AA"
        (FetchOutcome.ok sampleResult))
      [userTurn facialLabel "t0" InputType.facial, therapistReply sampleResult "t0"]
      ⟨"/analyze_facial", RequestBody.facial "data:image/jpeg;base64,AA"⟩ :=
  ⟨by decide, by decide, by decide,
    (captureExpression_manual_user_turn readyState "t0" "data:image/jpeg;base64,AA"
      sampleResult FetchOutcome.badJson (by decide) (by decide) (by decide)).1⟩

/-! ## Camera lifecycle -/

theorem stopCamera_not_active (s : State) (fault : Option TeardownStep)
    (h : cameraActive s = false) : stopCamera s fault = s := by
  unfold stopCamera
  unfold cameraActive at h
  cases hc : s.cameraHandler with
  | none => rfl
  | some cam =>
    simp only [hc] at h
    simp [h]

theorem stopCamera_active_complete (s : State) (cam : CameraHandler)
    (hc : s.cameraHandler = some cam) (ha : cam.isActive = true) (fault : Option TeardownStep)
    (hf : fault = none ∨ fault = some TeardownStep.updateControls) :
    (stopCamera s fault).cameraHandler =
      some { cam with captureInterval := none, stream := none, isActive := false } ∧
    (stopCamera s fault).timers =
      (match cam.captureInterval with
        | some t => s.timers.filter fun x => decide (x ≠ t)
        | none => s.timers) ∧
    (stopCamera s fault).liveStreams =
      (match cam.stream with
        | some id => s.liveStreams.filter fun x => decide (x ≠ id)
        | none => s.liveStreams) ∧
    (stopCamera s fault).videoSrcObject = (if cam.video then none else s.videoSrcObject) := by
  unfold stopCamera stopAutoCaptureMode
  rcases hf with hf | hf <;> subst hf <;>
    cases hi : cam.captureInterval <;> cases hst : cam.stream <;> cases hv : cam.video <;>
    simp [hc, ha, hi, hst, hv, updateCameraStatus]

theorem not_mem_filter_ne (l : List Nat) (a : Nat) :
    a ∉ l.filter fun x => decide (x ≠ a) := by
  simp [List.mem_filter]

theorem cameraActive_some (s : State) (h : cameraActive s = true) :
    ∃ cam, s.cameraHandler = some cam ∧ cam.isActive = true := by
  unfold cameraActive at h
  cases hc : s.cameraHandler with
  | none => simp [hc] at h
  | some cam => exact ⟨cam, rfl, by simpa [hc] using h⟩

theorem stopCamera_active_observed (s : State) (fault : Option TeardownStep)
    (h : cameraActive s = true)
    (hf : fault = none ∨ fault = some TeardownStep.updateControls) :
    heldTimer (stopCamera s fault) = none ∧
    (∀ t, heldTimer s = some t → t ∉ (stopCamera s fault).timers) ∧
    heldStream (stopCamera s fault) = none ∧
    (∀ id, heldStream s = some id → id ∉ (stopCamera s fault).liveStreams) ∧
    (heldVideo s = true → (stopCamera s fault).videoSrcObject = none) ∧
    cameraActive (stopCamera s fault) = false := by
  obtain ⟨cam, hc, ha⟩ := cameraActive_some s h
  obtain ⟨h1, h2, h3, h4⟩ := stopCamera_active_complete s cam hc ha fault hf
  refine ⟨?_, ?_, ?_, ?_, ?_, ?_⟩
  · simp [heldTimer, h1]
  · intro t ht
    have : cam.captureInterval = some t := by simpa [heldTimer, hc] using ht
    rw [h2, this]
    exact not_mem_filter_ne _ _
  · simp [heldStream, h1]
  · intro id hid
    have : cam.stream = some id := by simpa [heldStream, hc] using hid
    rw [h3, this]
    exact not_mem_filter_ne _ _
  · intro hv
    have : cam.video = true := by simpa [heldVideo, hc] using hv
    rw [h4, this]; rfl
  · simp [cameraActive, h1]

/-- C11 fails when the session is not active: with a stream acquired and the video not
yet playing, and after a start whose `play()` was rejected, `stopCamera()` returns at its
guard, and the session still holds its stream, whose tracks are live. -/
theorem stopCamera_keeps_stream_of_inactive_session :
    cameraActive acquiredPage = false ∧
    stopCamera acquiredPage none = acquiredPage ∧
    heldStream (stopCamera acquiredPage none) = some 0 ∧
    0 ∈ (stopCamera acquiredPage none).liveStreams ∧
    cameraActive failedStartPage = false ∧
    heldStream (stopCamera failedStartPage none) = some 0 ∧
    0 ∈ (stopCamera failedStartPage none).liveStreams := by
  decide

/-- C11 as amended: after a `stopCamera()` called on an active session, no teardown step
throwing, the session holds no stream and the tracks of the stream it held are stopped; a
`stopCamera()` called while the session is not active returns at the guard and changes
nothing, whatever stream the session holds. -/
theorem stopCamera_releases_stream_of_active_session (s : State)
    (fault : Option TeardownStep) :
    (cameraActive s = true →
      heldStream (stopCamera s none) = none ∧
      (∀ id, heldStream s = some id → id ∉ (stopCamera s none).liveStreams) ∧
      cameraActive (stopCamera s none) = false) ∧
    (cameraActive s = false → stopCamera s fault = s) := by
  refine ⟨fun h => ?_, stopCamera_not_active s fault⟩
  have := stopCamera_active_observed s none h (Or.inl rfl)
  exact ⟨this.2.2.1, this.2.2.2.1, this.2.2.2.2.2⟩

/-- C11 as amended, at the page with an active camera and at the page awaiting its
video. -/
theorem stopCamera_releases_stream_of_active_session_witness :
    cameraActive activeCameraPage = true ∧ cameraActive acquiredPage = false ∧
    heldStream (stopCamera activeCameraPage none) = none ∧
    stopCamera acquiredPage (some TeardownStep.stopTracks) = acquiredPage :=
  ⟨by decide, by decide,
    ((stopCamera_releases_stream_of_active_session activeCameraPage none).1 (by decide)).1,
    (stopCamera_releases_stream_of_active_session acquiredPage
      (some TeardownStep.stopTracks)).2 (by decide)⟩

/-- C12 fails: when stopping the tracks throws, the timer has been cancelled, but the
stream is still held and live, the video still shows it and the session is still
active. -/
theorem stopCamera_throw_skips_later_steps :
    cameraActive activeCameraPage = true ∧
    heldTimer (stopCamera activeCameraPage (some TeardownStep.stopTracks)) = none ∧
    (stopCamera activeCameraPage (some TeardownStep.stopTracks)).timers = [] ∧
    heldStream (stopCamera activeCameraPage (some TeardownStep.stopTracks)) = some 0 ∧
    0 ∈ (stopCamera activeCameraPage (some TeardownStep.stopTracks)).liveStreams ∧
    (stopCamera activeCameraPage (some TeardownStep.stopTracks)).videoSrcObject = some 0 ∧
    cameraActive (stopCamera activeCameraPage (some TeardownStep.stopTracks)) = true := by
  decide

/-- C12 as amended: on an active session, when no teardown step throws (or only the
update of the controls and status line after them does), `stopCamera()` completes all
four steps: the timer is cancelled, the tracks of the held stream are stopped, the video
is detached and the session is not active.  When a step throws, the steps after it are
skipped: a throw while cancelling the timer leaves the state as it was, and a throw while
stopping the tracks or detaching the video leaves the session active. -/
theorem stopCamera_teardown_steps (s : State) (fault : Option TeardownStep)
    (h : cameraActive s = true) :
    ((fault = none ∨ fault = some TeardownStep.updateControls) →
      heldTimer (stopCamera s fault) = none ∧
      (∀ t, heldTimer s = some t → t ∉ (stopCamera s fault).timers) ∧
      heldStream (stopCamera s fault) = none ∧
      (∀ id, heldStream s = some id → id ∉ (stopCamera s fault).liveStreams) ∧
      (heldVideo s = true → (stopCamera s fault).videoSrcObject = none) ∧
      cameraActive (stopCamera s fault) = false) ∧
    (fault = some TeardownStep.cancelTimer → heldTimer s ≠ none → stopCamera s fault = s) ∧
    (fault = some TeardownStep.stopTracks → heldStream s ≠ none →
      stopCamera s fault = stopAutoCaptureMode s ∧
      cameraActive (stopCamera s fault) = true ∧
      heldStream (stopCamera s fault) = heldStream s ∧
      (stopCamera s fault).liveStreams = s.liveStreams ∧
      (stopCamera s fault).videoSrcObject = s.videoSrcObject) ∧
    (fault = some TeardownStep.detachVideo → heldVideo s = true →
      cameraActive (stopCamera s fault) = true ∧
      (stopCamera s fault).videoSrcObject = s.videoSrcObject) := by
  obtain ⟨cam, hc, ha⟩ := cameraActive_some s h
  refine ⟨stopCamera_active_observed s fault h, ?_, ?_, ?_⟩
  · intro hf ht
    subst hf
    have : cam.captureInterval.isSome = true := by
      cases hi : cam.captureInterval with
      | none => simp [heldTimer, hc, hi] at ht
      | some t => rfl
    unfold stopCamera
    simp [hc, ha, this]
  · intro hf hs
    subst hf
    have hsome : cam.stream.isSome = true := by
      cases hi : cam.stream with
      | none => simp [heldStream, hc, hi] at hs
      | some t => rfl
    have heq : stopCamera s (some TeardownStep.stopTracks) = stopAutoCaptureMode s := by
      unfold stopCamera
      simp [hc, ha, hsome]
    rw [heq]
    unfold stopAutoCaptureMode
    cases hi : cam.captureInterval <;>
      simp [hc, hi, cameraActive, heldStream, ha]
  · intro hf hv
    subst hf
    have hvid : cam.video = true := by simpa [heldVideo, hc] using hv
    unfold stopCamera stopAutoCaptureMode
    cases hi : cam.captureInterval <;> cases hst : cam.stream <;>
      simp [hc, ha, hi, hst, hvid, cameraActive]

/-- C12 as amended, at the page with an active camera. -/
theorem stopCamera_teardown_steps_witness :
    cameraActive activeCameraPage = true ∧
    heldTimer (stopCamera activeCameraPage none) = none ∧
    heldStream (stopCamera activeCameraPage none) = none ∧
    cameraActive (stopCamera activeCameraPage none) = false ∧
    stopCamera activeCameraPage (some TeardownStep.cancelTimer) = activeCameraPage :=
  ⟨by decide,
    ((stopCamera_teardown_steps activeCameraPage none (by decide)).1 (Or.inl rfl)).1,
    ((stopCamera_teardown_steps activeCameraPage none (by decide)).1 (Or.inl rfl)).2.2.1,
    ((stopCamera_teardown_steps activeCameraPage none (by decide)).1 (Or.inl rfl)).2.2.2.2.2,
    (stopCamera_teardown_steps activeCameraPage (some TeardownStep.cancelTimer)
      (by decide)).2.1 rfl (by decide)⟩

/-- C13, the code at the failing input: no script assigns `window.cameraHandler`, so on
the page with an active camera the `beforeunload` listener does nothing and the session
stays active with its timer scheduled and its tracks live; on the page with a recording
voice session the recording goes on.  Were the global set to the controller's handler,
the same listener would tear the camera session down. -/
theorem beforeUnload_leaves_camera_active :
    loadedPage.windowCameraHandler = false ∧
    activeCameraPage.windowCameraHandler = false ∧
    cameraActive activeCameraPage = true ∧
    beforeUnload activeCameraPage none = activeCameraPage ∧
    cameraActive (beforeUnload activeCameraPage none) = true ∧
    (beforeUnload activeCameraPage none).timers = [0] ∧
    (beforeUnload activeCameraPage none).liveStreams = [0] ∧
    voiceRecording (beforeUnload recordingPage none) = true ∧
    cameraIdle (beforeUnload { activeCameraPage with windowCameraHandler := true } none) = true ∧
    (beforeUnload { activeCameraPage with windowCameraHandler := true } none).timers = [] ∧
    (beforeUnload { activeCameraPage with windowCameraHandler := true } none).liveStreams = [] := by
  decide

theorem startCameraStart_accept (s : State) (cam : CameraHandler)
    (hc : s.cameraHandler = some cam) (hs : cam.isSupported = true) (ha : cam.isActive = false) :
    startCameraStart s = (updateCameraStatus s "Requesting camera access...", true) := by
  unfold startCameraStart
  simp [hc, hs, ha]

theorem startCameraActivate_eq (s : State) (cam : CameraHandler)
    (hc : s.cameraHandler = some cam) :
    startCameraActivate s =
      { s with
        cameraStatus := "Camera active - position your face in the frame"
        timers := s.timers ++ [s.timersCreated]
        timersCreated := s.timersCreated + 1
        cameraHandler := some { cam with isActive := true, captureInterval := some s.timersCreated } } := by
  unfold startCameraActivate startAutoCaptureMode
  simp [hc, updateCameraStatus]

/-- C14 fails: a `stopCamera()` requested while `getUserMedia` is outstanding returns at
its guard, and when the request and the video settle the session becomes active, holding
a live stream, with an auto-capture timer scheduled. -/
theorem stopCamera_during_acquisition_is_lost :
    (startCameraStart loadedPage).2 = true ∧
    stopCamera (startCameraStart loadedPage).1 none = (startCameraStart loadedPage).1 ∧
    cameraActive
      (startCameraInterrupted loadedPage none MediaOutcome.granted PlayOutcome.playing) = true ∧
    heldStream
      (startCameraInterrupted loadedPage none MediaOutcome.granted PlayOutcome.playing) =
        some 0 ∧
    0 ∈ (startCameraInterrupted loadedPage none MediaOutcome.granted
      PlayOutcome.playing).liveStreams ∧
    (startCameraInterrupted loadedPage none MediaOutcome.granted PlayOutcome.playing).timers =
      [0] := by
  decide

/-- C14 as amended: a `stopCamera()` requested after `startCamera()` has begun and before
`getUserMedia` settles returns at its guard and has no effect on the start: the run is
the run of `startCamera()` alone, and once the stream is granted and the video plays the
session is active, holds the new stream, whose tracks are live, and has a new
auto-capture timer scheduled. -/
theorem stopCamera_during_acquisition (s : State) (cam : CameraHandler)
    (fault : Option TeardownStep) (media : MediaOutcome) (play : PlayOutcome)
    (hc : s.cameraHandler = some cam) (hs : cam.isSupported = true)
    (ha : cam.isActive = false) :
    stopCamera (startCameraStart s).1 fault = (startCameraStart s).1 ∧
    startCameraInterrupted s fault media play = startCamera s media play ∧
    cameraActive
      (startCameraInterrupted s fault MediaOutcome.granted PlayOutcome.playing) = true ∧
    heldStream (startCameraInterrupted s fault MediaOutcome.granted PlayOutcome.playing) =
      some s.streamsCreated ∧
    s.streamsCreated ∈
      (startCameraInterrupted s fault MediaOutcome.granted PlayOutcome.playing).liveStreams ∧
    heldTimer (startCameraInterrupted s fault MediaOutcome.granted PlayOutcome.playing) =
      some s.timersCreated ∧
    s.timersCreated ∈
      (startCameraInterrupted s fault MediaOutcome.granted PlayOutcome.playing).timers := by
  have hstart := startCameraStart_accept s cam hc hs ha
  have hstop : stopCamera (updateCameraStatus s "Requesting camera access...") fault =
      updateCameraStatus s "Requesting camera access..." :=
    stopCamera_not_active _ fault (by simp [cameraActive, updateCameraStatus, hc, ha])
  have hrun : ∀ m p, startCameraInterrupted s fault m p = startCamera s m p := by
    intro m p
    unfold startCameraInterrupted startCamera
    rw [hstart]
    simp only [hstop]
  refine ⟨by rw [hstart]; exact hstop, hrun media play, ?_⟩
  rw [hrun]
  unfold startCamera
  rw [hstart]
  cases hv : cam.video <;>
    simp [startCameraAcquire, startCameraPlay, startCameraActivate, startAutoCaptureMode,
      updateCameraStatus, hc, hv, cameraActive, heldStream, heldTimer]

/-- C14 as amended, at the loaded page. -/
theorem stopCamera_during_acquisition_witness :
    loadedPage.cameraHandler =
      some loadedCameraHandler ∧
    cameraActive
      (startCameraInterrupted loadedPage none MediaOutcome.granted PlayOutcome.playing) = true :=
  ⟨by decide,
    (stopCamera_during_acquisition loadedPage
      loadedCameraHandler
      none MediaOutcome.granted PlayOutcome.playing (by decide) (by decide) (by decide)).2.2.1⟩

/-- C15: a `startCamera()` that passes its guard and whose `getUserMedia` request is
rejected with a `NotAllowedError` changes nothing but the status line, which shows the
permission-denied text: the session is not active, `captureInterval` is as before (null
when it was null), and no timer has been scheduled. -/
theorem startCamera_permission_denied (s : State) (cam : CameraHandler) (play : PlayOutcome)
    (hc : s.cameraHandler = some cam) (hs : cam.isSupported = true)
    (ha : cam.isActive = false) :
    startCamera s (MediaOutcome.rejected "NotAllowedError") play =
      { s with cameraStatus := "Camera access denied. Please allow camera access and try again." } ∧
    cameraActive (startCamera s (MediaOutcome.rejected "NotAllowedError") play) = false ∧
    (startCamera s (MediaOutcome.rejected "NotAllowedError") play).cameraStatus =
      "Camera access denied. Please allow camera access and try again." ∧
    heldTimer (startCamera s (MediaOutcome.rejected "NotAllowedError") play) = heldTimer s ∧
    (heldTimer s = none →
      heldTimer (startCamera s (MediaOutcome.rejected "NotAllowedError") play) = none) ∧
    (startCamera s (MediaOutcome.rejected "NotAllowedError") play).timers = s.timers ∧
    (startCamera s (MediaOutcome.rejected "NotAllowedError") play).timersCreated =
      s.timersCreated := by
  have hrun : startCamera s (MediaOutcome.rejected "NotAllowedError") play =
      { s with cameraStatus :=
        "Camera access denied. Please allow camera access and try again." } := by
    unfold startCamera
    rw [startCameraStart_accept s cam hc hs ha]
    simp [startCameraAcquire, handleCameraError, updateCameraStatus, hc]
  rw [hrun]
  refine ⟨rfl, ?_, rfl, rfl, fun h => h, rfl, rfl⟩
  simp [cameraActive, hc, ha]

/-- C15, at the loaded page. -/
theorem startCamera_permission_denied_witness :
    loadedPage.cameraHandler =
      some loadedCameraHandler ∧
    heldTimer loadedPage = none ∧
    (startCamera loadedPage (MediaOutcome.rejected "NotAllowedError")
      PlayOutcome.playing).cameraStatus =
      "Camera access denied. Please allow camera access and try again." ∧
    (startCamera loadedPage (MediaOutcome.rejected "NotAllowedError")
      PlayOutcome.playing).timers = [] :=
  ⟨by decide, by decide,
    (startCamera_permission_denied loadedPage
      loadedCameraHandler
      PlayOutcome.playing (by decide) (by decide) (by decide)).2.2.1,
    (startCamera_permission_denied loadedPage
      loadedCameraHandler
      PlayOutcome.playing (by decide) (by decide) (by decide)).2.2.2.2.2.1⟩

/-! ## Voice session -/

theorem collect_foldl (l : List SpeechResult) :
    ∀ a b : String,
      l.foldl
        (fun acc res =>
          if res.isFinal then (acc.1 ++ res.transcript, acc.2)
          else (acc.1, acc.2 ++ res.transcript))
        (a, b) =
      (a ++ String.join ((l.filter fun r => r.isFinal).map fun r => r.transcript),
        b ++ String.join ((l.filter fun r => !r.isFinal).map fun r => r.transcript)) := by
  induction l with
  | nil =>
    intro a b
    simp [String.join]
  | cons r rs ih =>
    intro a b
    rw [List.foldl_cons]
    cases hr : r.isFinal
    · simp only [hr, Bool.false_eq_true, if_false, ih]
      refine Prod.ext ?_ ?_
      · simp [hr]
      · apply String.ext
        simp [hr, List.append_assoc]
    · simp only [hr, if_true, ih]
      refine Prod.ext ?_ ?_
      · apply String.ext
        simp [hr, List.append_assoc]
      · simp [hr]

theorem collectTranscripts_eq (event : SpeechEvent) :
    collectTranscripts event =
      (String.join (finalFragments event), String.join (interimFragments event)) := by
  unfold collectTranscripts finalFragments interimFragments
  rw [collect_foldl]
  simp

theorem join_ne_empty_iff (ls : List String) :
    String.join ls ≠ "" ↔ ∃ t ∈ ls, t ≠ "" := by
  have hd : ∀ t : String, t = "" ↔ t.data = [] := by
    intro t
    constructor
    · intro h; rw [h]
    · intro h; exact String.ext h
  rw [Ne, hd, String.data_join, List.flatten_eq_nil_iff]
  constructor
  · intro h
    by_contra hc
    apply h
    intro l hl
    obtain ⟨t, ht, rfl⟩ := List.mem_map.mp hl
    by_contra hne
    exact hc ⟨t, ht, fun h0 => hne ((hd t).mp h0)⟩
  · rintro ⟨t, ht, hne⟩ h
    exact hne ((hd t).mpr (h _ (List.mem_map_of_mem _ ht)))

theorem processVoiceInputStart_remoteCalls (s : State) (now transcript : String) :
    (processVoiceInputStart s now transcript).1.1.remoteCalls.length ≤
      s.remoteCalls.length + 1 := by
  by_cases h : jsTrim transcript = ""
  · unfold processVoiceInputStart
    simp [h, updateVoiceStatus]
  · rw [processVoiceInputStart_accept s now transcript h]
    simp

theorem onresult_final (s : State) (now : String) (event : SpeechEvent)
    (h : ∃ t ∈ finalFragments event, t ≠ "") :
    onresult s now event =
      processVoiceInputStart
        (updateVoiceStatus s
          (if String.join (interimFragments event) ≠ "" then String.join (interimFragments event)
            else String.join (finalFragments event)))
        now (String.join (finalFragments event)) := by
  have hne := (join_ne_empty_iff _).mpr h
  unfold onresult onRecordingComplete
  rw [collectTranscripts_eq]
  simp only [hne, ne_eq, not_false_eq_true, if_true]

theorem onresult_no_final (s : State) (now : String) (event : SpeechEvent)
    (h : ¬ ∃ t ∈ finalFragments event, t ≠ "") :
    onresult s now event =
      ((updateVoiceStatus s (String.join (interimFragments event)), none), false) := by
  have he : String.join (finalFragments event) = "" := by
    by_contra hc
    exact h ((join_ne_empty_iff _).mp hc)
  unfold onresult
  rw [collectTranscripts_eq]
  simp only [he, ne_eq, not_true_eq_false, if_false]
  by_cases hi : String.join (interimFragments event) = ""
  · simp [hi]
  · simp [hi]

/-- C16: for every result event the `onresult` handler reads the final and the interim
results the event brings, concatenates each kind in order, and calls
`processVoiceInput` at most once: exactly when a final result has non-empty text, with
the concatenation of the final transcripts.  An event without such a result only sets
the status line, to the interim text.  After interim "I feel" and then final
"I feel happy" one analysis has been requested, with "I feel happy". -/
theorem onresult_triggers_analysis_once (s : State) (now : String) (event : SpeechEvent) :
    collectTranscripts event =
      (String.join (finalFragments event), String.join (interimFragments event)) ∧
    ((∃ t ∈ finalFragments event, t ≠ "") →
      onresult s now event =
        processVoiceInputStart
          (updateVoiceStatus s
            (if String.join (interimFragments event) ≠ "" then
              String.join (interimFragments event)
            else String.join (finalFragments event)))
          now (String.join (finalFragments event))) ∧
    ((¬ ∃ t ∈ finalFragments event, t ≠ "") →
      onresult s now event =
        ((updateVoiceStatus s (String.join (interimFragments event)), none), false) ∧
      (onresult s now event).1.1.remoteCalls = s.remoteCalls ∧
      (onresult s now event).1.1.chatHistory = s.chatHistory ∧
      (onresult s now event).1.1.chatArea = s.chatArea) ∧
    (onresult s now event).1.1.remoteCalls.length ≤ s.remoteCalls.length + 1 ∧
    (afterInterimPage.voiceStatus = "I feel" ∧ afterInterimPage.remoteCalls = [] ∧
      readChatHistory afterInterimPage = [] ∧
      (onresult afterInterimPage "2024-01-01T00:00:02.000Z"
        (singleResult "I feel happy" true)).1.1.remoteCalls =
          [⟨"/analyze_voice", RequestBody.voice "I feel happy"⟩] ∧
      readChatHistory (onresult afterInterimPage "2024-01-01T00:00:02.000Z"
        (singleResult "I feel happy" true)).1.1 =
          [userTurn "I feel happy" "2024-01-01T00:00:02.000Z" InputType.voice]) := by
  refine ⟨collectTranscripts_eq event, onresult_final s now event, ?_, ?_, by decide⟩
  · intro h
    rw [onresult_no_final s now event h]
    exact ⟨rfl, rfl, rfl, rfl⟩
  · by_cases h : ∃ t ∈ finalFragments event, t ≠ ""
    · rw [onresult_final s now event h]
      exact processVoiceInputStart_remoteCalls _ _ _
    · rw [onresult_no_final s now event h]
      exact Nat.le_succ _

/-- C16, at the final result "I feel happy" and at the interim result "I feel". -/
theorem onresult_triggers_analysis_once_witness :
    (∃ t ∈ finalFragments (singleResult "I feel happy" true), t ≠ "") ∧
    (¬ ∃ t ∈ finalFragments (singleResult "I feel" false), t ≠ "") ∧
    onresult recordingPage "t0" (singleResult "I feel happy" true) =
      processVoiceInputStart
        (updateVoiceStatus recordingPage
          (if String.join (interimFragments (singleResult "I feel happy" true)) ≠ "" then
            String.join (interimFragments (singleResult "I feel happy" true))
          else String.join (finalFragments (singleResult "I feel happy" true))))
        "t0" (String.join (finalFragments (singleResult "I feel happy" true))) ∧
    (onresult recordingPage "t0" (singleResult "I feel" false)).1.1.remoteCalls =
      recordingPage.remoteCalls :=
  ⟨⟨"I feel happy", by decide, by decide⟩, by decide,
    (onresult_triggers_analysis_once recordingPage "t0" (singleResult "I feel happy" true)).2.1
      ⟨"I feel happy", by decide, by decide⟩,
    ((onresult_triggers_analysis_once recordingPage "t0" (singleResult "I feel" false)).2.2.1
      (by decide)).2.1⟩

/-- C17 fails: `stopRecording()` leaves the `onresult` handler in place, and the handler
does not look at `isRecording`; a final result delivered after the stop is analysed like
any other, with a user turn and a remote call. -/
theorem result_after_stopRecording_is_analysed :
    voiceRecording recordingPage = true ∧
    voiceRecording (stopRecording recordingPage false) = false ∧
    (stopRecording recordingPage false).recognitionStops = [1] ∧
    (onresult (stopRecording recordingPage false) "2024-01-01T00:00:02.000Z"
      (singleResult "I feel happy" true)).2 = true ∧
    (onresult (stopRecording recordingPage false) "2024-01-01T00:00:02.000Z"
      (singleResult "I feel happy" true)).1.1.remoteCalls =
        [⟨"/analyze_voice", RequestBody.voice "I feel happy"⟩] ∧
    readChatHistory (onresult (stopRecording recordingPage false) "2024-01-01T00:00:02.000Z"
      (singleResult "I feel happy" true)).1.1 =
        [userTurn "I feel happy" "2024-01-01T00:00:02.000Z" InputType.voice] := by
  decide

theorem stopRecording_frame (s : State) (stopThrows : Bool) :
    (stopRecording s stopThrows).remoteCalls = s.remoteCalls ∧
    (stopRecording s stopThrows).chatHistory = s.chatHistory ∧
    (stopRecording s stopThrows).chatArea = s.chatArea ∧
    (stopRecording s stopThrows).voiceStatus = s.voiceStatus := by
  unfold stopRecording
  cases hv : s.voiceHandler with
  | none => exact ⟨rfl, rfl, rfl, rfl⟩
  | some v =>
    cases hr : v.isRecording <;> cases hrec : v.recognition <;> cases stopThrows <;>
      simp [hr, hrec]

/-- C17 as amended: `stopRecording()` on a listening session calls `recognition.stop()`
and clears `isRecording`; the call itself issues no remote call and adds no
`ChatMessage`.  A result delivered after it is handled as at any other time: a final
result whose text is not blank is passed to `processVoiceInput`, which stores the user
turn and issues the remote call. -/
theorem stopRecording_then_result (s : State) (v : VoiceHandler) (id : Nat)
    (now transcript : String) (hv : s.voiceHandler = some v) (hr : v.isRecording = true)
    (hid : v.recognition = some id) (ht : jsTrim transcript ≠ "") :
    voiceRecording (stopRecording s false) = false ∧
    (stopRecording s false).recognitionStops = s.recognitionStops ++ [id] ∧
    (stopRecording s false).remoteCalls = s.remoteCalls ∧
    (stopRecording s false).chatHistory = s.chatHistory ∧
    (stopRecording s false).chatArea = s.chatArea ∧
    onresult (stopRecording s false) now (singleResult transcript true) =
      processVoiceInputStart (updateVoiceStatus (stopRecording s false) transcript) now
        transcript ∧
    (onresult (stopRecording s false) now (singleResult transcript true)).2 = true ∧
    (onresult (stopRecording s false) now (singleResult transcript true)).1.1.remoteCalls =
      s.remoteCalls ++ [⟨"/analyze_voice", RequestBody.voice transcript⟩] ∧
    (onresult (stopRecording s false) now (singleResult transcript true)).1.1.chatHistory =
      (storeAll s [userTurn transcript now InputType.voice]).chatHistory := by
  have hne : transcript ≠ "" := by
    intro h
    apply ht
    rw [h]
    decide
  have hstop : stopRecording s false =
      { s with
        recognitionStops := s.recognitionStops ++ [id]
        voiceHandler := some { v with isRecording := false } } := by
    unfold stopRecording
    simp [hv, hr, hid]
  have hfin : finalFragments (singleResult transcript true) = [transcript] := rfl
  have hint : interimFragments (singleResult transcript true) = [] := rfl
  have hjoin : String.join [transcript] = transcript := by
    apply String.ext
    simp
  have hres : onresult (stopRecording s false) now (singleResult transcript true) =
      processVoiceInputStart (updateVoiceStatus (stopRecording s false) transcript) now
        transcript := by
    rw [onresult_final _ now _ ⟨transcript, by rw [hfin]; simp, hne⟩, hfin, hint, hjoin]
    simp [String.join]
  refine ⟨?_, ?_, ?_, ?_, ?_, hres, ?_, ?_, ?_⟩
  · rw [hstop]; simp [voiceRecording]
  · rw [hstop]
  · rw [hstop]
  · rw [hstop]
  · rw [hstop]
  · rw [hres, processVoiceInputStart_accept _ now transcript ht]
  · rw [hres, processVoiceInputStart_accept _ now transcript ht, hstop]
    rfl
  · rw [hres, processVoiceInputStart_accept _ now transcript ht, hstop]
    rfl

/-- C17 as amended, at the recording page. -/
theorem stopRecording_then_result_witness :
    recordingPage.voiceHandler =
      some ⟨some 1, true, true, 2, 2, 2⟩ ∧
    jsTrim "I feel happy" ≠ "" ∧
    (onresult (stopRecording recordingPage false) "t0"
      (singleResult "I feel happy" true)).1.1.remoteCalls =
      recordingPage.remoteCalls ++ [⟨"/analyze_voice", RequestBody.voice "I feel happy"⟩] :=
  ⟨by decide, by decide,
    (stopRecording_then_result recordingPage ⟨some 1, true, true, 2, 2, 2⟩ 1 "t0"
      "I feel happy" (by decide) (by decide) (by decide) (by decide)).2.2.2.2.2.2.2.1⟩

/-- C18: for a transcript that is empty or only whitespace, `processVoiceInput` sets the
voice status line and does nothing else: no `ChatMessage` is stored or shown and no
remote call is issued. -/
theorem processVoiceInput_blank (s : State) (now later transcript : String)
    (outcome : FetchOutcome) (h : jsTrim transcript = "") :
    processVoiceInputStart s now transcript =
      ((updateVoiceStatus s "No speech detected. Please try again.", none), false) ∧
    processVoiceInput s now later transcript outcome =
      (updateVoiceStatus s "No speech detected. Please try again.", none) ∧
    processVoiceInput s now later transcript outcome =
      ({ s with voiceStatus := "No speech detected. Please try again." }, none) ∧
    (processVoiceInput s now later transcript outcome).1.remoteCalls = s.remoteCalls ∧
    (processVoiceInput s now later transcript outcome).1.chatHistory = s.chatHistory ∧
    (processVoiceInput s now later transcript outcome).1.chatArea = s.chatArea := by
  have hs : processVoiceInputStart s now transcript =
      ((updateVoiceStatus s "No speech detected. Please try again.", none), false) := by
    unfold processVoiceInputStart
    simp only [h, if_true]
  have hp : processVoiceInput s now later transcript outcome =
      (updateVoiceStatus s "No speech detected. Please try again.", none) := by
    unfold processVoiceInput
    rw [hs]
  rw [hp]
  exact ⟨hs, rfl, rfl, rfl, rfl, rfl⟩

/-- C18, at a transcript of blanks and a line break. -/
theorem processVoiceInput_blank_witness :
    jsTrim "  \n " = "" ∧
    processVoiceInput recordingPage "t0" "t1" "  \n " FetchOutcome.notOk =
      (updateVoiceStatus recordingPage "No speech detected. Please try again.", none) :=
  ⟨by decide,
    (processVoiceInput_blank recordingPage "t0" "t1" "  \n " FetchOutcome.notOk
      (by decide)).2.1⟩

/-! ## Guards and repeated mode switches -/

theorem captureExpressionStart_not_active (s : State) (isAutoCapture : Bool)
    (imageDataUrl : String) (h : cameraActive s = false) :
    captureExpressionStart s isAutoCapture imageDataUrl = ((s, none), false) := by
  unfold captureExpressionStart
  unfold cameraActive at h
  cases hc : s.cameraHandler with
  | none => rfl
  | some cam =>
    simp only [hc] at h
    simp [h]

/-- C19: `captureExpression` called while the camera session is not active, and
`startRecording` called while the voice session is recording, return at their guards in
the state they were called in: no remote call, no recognition start, no `ChatMessage`,
no change to any field of either session. -/
theorem guarded_calls_are_noops (s : State) (now imageDataUrl : String)
    (isAutoCapture startThrows : Bool) (outcome : FetchOutcome) :
    (cameraActive s = false →
      captureExpressionStart s isAutoCapture imageDataUrl = ((s, none), false) ∧
      captureExpression s now isAutoCapture imageDataUrl outcome = (s, none)) ∧
    (voiceRecording s = true → startRecording s startThrows = s) := by
  constructor
  · intro h
    have hs := captureExpressionStart_not_active s isAutoCapture imageDataUrl h
    refine ⟨hs, ?_⟩
    unfold captureExpression
    rw [hs]
  · intro h
    unfold startRecording
    unfold voiceRecording at h
    cases hv : s.voiceHandler with
    | none => rfl
    | some v =>
      simp only [hv] at h
      simp [h]

/-- C19, at the loaded page, whose camera is not active, and at the recording page. -/
theorem guarded_calls_are_noops_witness :
    cameraActive loadedPage = false ∧ voiceRecording recordingPage = true ∧
    captureExpression loadedPage "t0" false "data:image/jpeg;base64,AA"
      (FetchOutcome.ok sampleResult) = (loadedPage, none) ∧
    startRecording recordingPage false = recordingPage :=
  ⟨by decide, by decide,
    ((guarded_calls_are_noops loadedPage "t0" "data:image/jpeg;base64,AA" false false
      (FetchOutcome.ok sampleResult)).1 (by decide)).2,
    (guarded_calls_are_noops recordingPage "t0" "data:image/jpeg;base64,AA" false false
      (FetchOutcome.ok sampleResult)).2 (by decide)⟩

theorem switchMode_observed (s : State) (mode : Mode) :
    (switchMode s mode).currentMode = mode ∧
    voiceRecording (switchMode s mode) = voiceRecording s ∧
    cameraActive (switchMode s mode) = cameraActive s ∧
    heldStream (switchMode s mode) = heldStream s ∧
    heldTimer (switchMode s mode) = heldTimer s := by
  unfold switchMode
  by_cases h1 : s.hasSpeechRecognition = false <;> by_cases h2 : s.hasMediaDevices = false <;>
    cases mode <;> cases hv : s.voiceHandler <;> cases hc : s.cameraHandler <;>
    simp [voiceInitialize, cameraInitialize, voiceRecording, cameraActive,
      heldStream, heldTimer, hv, hc, h1, h2]

/-- C20 fails for the voice and the camera mode: `switchMode` on the mode already active
runs the handler's `initialize()` again, which replaces the recognition object and adds a
second click listener to each control. -/
theorem switchMode_same_mode_reinitializes :
    voiceModePage.currentMode = Mode.voice ∧
    switchMode voiceModePage Mode.voice ≠ voiceModePage ∧
    voiceModePage.voiceHandler.map (fun v => (v.recognition, v.startListeners, v.stopListeners)) =
      some (some 1, 2, 2) ∧
    (switchMode voiceModePage Mode.voice).voiceHandler.map
        (fun v => (v.recognition, v.startListeners, v.stopListeners)) =
      some (some 2, 3, 3) ∧
    cameraModePage.currentMode = Mode.camera ∧
    switchMode cameraModePage Mode.camera ≠ cameraModePage ∧
    cameraModePage.cameraHandler.map
        (fun c => (c.startListeners, c.captureListeners, c.stopListeners)) =
      some (2, 2, 2) ∧
    (switchMode cameraModePage Mode.camera).cameraHandler.map
        (fun c => (c.startListeners, c.captureListeners, c.stopListeners)) =
      some (3, 3, 3) := by
  decide

/-- C20 as amended: `switchMode` on the mode already active leaves `currentMode`, the
recording and active flags, the held stream and the held timer as they were.  In text
mode, with the text button and area showing, it leaves the whole state as it was.  In
voice or camera mode, with the handler present and the capability supported, it runs
`initialize()` again: the voice handler gets a new recognition object, and every start,
stop and capture control gets one more click listener. -/
theorem switchMode_same_mode (s : State) :
    (switchMode s s.currentMode).currentMode = s.currentMode ∧
    voiceRecording (switchMode s s.currentMode) = voiceRecording s ∧
    cameraActive (switchMode s s.currentMode) = cameraActive s ∧
    heldStream (switchMode s s.currentMode) = heldStream s ∧
    heldTimer (switchMode s s.currentMode) = heldTimer s ∧
    (s.currentMode = Mode.text → s.activeModeBtn = some Mode.text →
      s.visibleArea = some Mode.text → switchMode s s.currentMode = s) ∧
    (∀ v : VoiceHandler, s.currentMode = Mode.voice → s.voiceHandler = some v →
      s.hasSpeechRecognition = true →
      (switchMode s s.currentMode).voiceHandler =
        some { v with
          isSupported := true
          recognition := some v.recognitionsCreated
          recognitionsCreated := v.recognitionsCreated + 1
          startListeners := v.startListeners + 1
          stopListeners := v.stopListeners + 1 }) ∧
    (∀ c : CameraHandler, s.currentMode = Mode.camera → s.cameraHandler = some c →
      s.hasMediaDevices = true →
      (switchMode s s.currentMode).cameraHandler =
        some { c with
          isSupported := true
          video := true
          canvas := true
          startListeners := c.startListeners + 1
          captureListeners := c.captureListeners + 1
          stopListeners := c.stopListeners + 1 }) := by
  obtain ⟨h1, h2, h3, h4, h5⟩ := switchMode_observed s s.currentMode
  refine ⟨h1, h2, h3, h4, h5, ?_, ?_, ?_⟩
  · intro hm hb ha
    unfold switchMode
    rw [hm]
    simp only []
    cases s
    simp_all
  · intro v hm hv hs
    unfold switchMode
    rw [hm]
    simp [hv, voiceInitialize, hs]
  · intro c hm hc hs
    unfold switchMode
    rw [hm]
    simp [hc, cameraInitialize, hs]

/-- C20 as amended, at the page in voice mode. -/
theorem switchMode_same_mode_witness :
    voiceModePage.currentMode = Mode.voice ∧
    voiceModePage.voiceHandler = some ⟨some 1, false, true, 2, 2, 2⟩ ∧
    voiceModePage.hasSpeechRecognition = true ∧
    (switchMode voiceModePage voiceModePage.currentMode).voiceHandler =
      some ⟨some 2, false, true, 3, 3, 3⟩ :=
  ⟨by decide, by decide, by decide,
    (switchMode_same_mode voiceModePage).2.2.2.2.2.2.1 ⟨some 1, false, true, 2, 2, 2⟩
      (by decide) (by decide) (by decide)⟩

/-! ## Recognition errors and overlapping camera starts -/

theorem recordingErrorMessage_other (error : String)
    (h : error ∉ ["network", "not-allowed", "no-speech", "audio-capture"]) :
    recordingErrorMessage error = "Voice recognition error occurred." := by
  simp only [List.mem_cons, List.mem_singleton, List.not_mem_nil, or_false, not_or] at h
  unfold recordingErrorMessage
  simp [h.1, h.2.1, h.2.2.1, h.2.2.2]

theorem onRecordingError_eq (s : State) (v : VoiceHandler) (error : String)
    (hv : s.voiceHandler = some v) :
    onRecordingError s error =
      { s with
        voiceHandler := some { v with isRecording := false }
        voiceStatus := recordingErrorMessage error
        pendingStatusResets := s.pendingStatusResets + 1 } := by
  unfold onRecordingError
  simp [hv, updateVoiceStatus]

/-- C21: `onRecordingError` shows, for the codes `network`, `not-allowed`, `no-speech` and
`audio-capture` and for any other code, one of five messages that are pairwise distinct;
for every code it leaves the voice session not recording, so that a `startRecording()`
that follows at once passes its guard and, `recognition.start()` not throwing, starts the
recognition. -/
theorem onRecordingError_messages (s : State) (error : String) :
    recordingErrorMessage "network" = "Network error. Please check your connection." ∧
    recordingErrorMessage "not-allowed" =
      "Microphone access denied. Please allow microphone access." ∧
    recordingErrorMessage "no-speech" = "No speech detected. Please try again." ∧
    recordingErrorMessage "audio-capture" =
      "No microphone found. Please check your audio settings." ∧
    (error ∉ ["network", "not-allowed", "no-speech", "audio-capture"] →
      recordingErrorMessage error = "Voice recognition error occurred.") ∧
    ["Network error. Please check your connection.",
      "Microphone access denied. Please allow microphone access.",
      "No speech detected. Please try again.",
      "No microphone found. Please check your audio settings.",
      "Voice recognition error occurred."].Nodup ∧
    (s.voiceHandler ≠ none →
      (onRecordingError s error).voiceStatus = recordingErrorMessage error) ∧
    voiceRecording (onRecordingError s error) = false ∧
    (∀ (v : VoiceHandler) (id : Nat), s.voiceHandler = some v → v.isSupported = true →
      v.recognition = some id →
      voiceRecording (startRecording (onRecordingError s error) false) = true ∧
      (startRecording (onRecordingError s error) false).recognitionStarts =
        s.recognitionStarts ++ [id] ∧
      (startRecording (onRecordingError s error) true).voiceStatus =
        "Could not start voice recording. Please try again.") := by
  refine ⟨by decide, by decide, by decide, by decide, recordingErrorMessage_other error,
    by decide, ?_, ?_, ?_⟩
  · intro h
    cases hv : s.voiceHandler with
    | none => exact absurd hv h
    | some v => rw [onRecordingError_eq s v error hv]
  · cases hv : s.voiceHandler with
    | none => simp [onRecordingError, voiceRecording, hv]
    | some v =>
      rw [onRecordingError_eq s v error hv]
      simp [voiceRecording]
  · intro v id hv hs hid
    rw [onRecordingError_eq s v error hv]
    refine ⟨?_, ?_, ?_⟩ <;>
      simp [startRecording, voiceRecording, hs, hid, updateVoiceStatus]

/-- C21, at the recording page and the codes `no-speech` and `aborted`. -/
theorem onRecordingError_messages_witness :
    "aborted" ∉ ["network", "not-allowed", "no-speech", "audio-capture"] ∧
    recordingPage.voiceHandler = some ⟨some 1, true, true, 2, 2, 2⟩ ∧
    recordingErrorMessage "aborted" = "Voice recognition error occurred." ∧
    (onRecordingError recordingPage "no-speech").voiceStatus =
      recordingErrorMessage "no-speech" ∧
    voiceRecording (startRecording (onRecordingError recordingPage "no-speech") false) = true :=
  ⟨by decide, by decide,
    (onRecordingError_messages recordingPage "aborted").2.2.2.2.1 (by decide),
    (onRecordingError_messages recordingPage "no-speech").2.2.2.2.2.2.1 (by decide),
    ((onRecordingError_messages recordingPage "no-speech").2.2.2.2.2.2.2.2
      ⟨some 1, true, true, 2, 2, 2⟩ 1 (by decide) (by decide) (by decide)).1⟩

/-- C22, the code at the failing input: a second `startCamera()` issued while the first
awaits its stream passes the guard, which only looks at `isActive`.  On the page in
camera mode one click on the start button makes two such calls; when both have run to
the end, two auto-capture timers are scheduled and `captureInterval` holds the second.
`stopCamera()` on that active session cancels the second alone: the first stays scheduled
on a session that is no longer active, and `destroy()` does not reach it either. -/
theorem overlapping_starts_leak_a_timer :
    (startCameraStart (startCameraStart loadedPage).1).2 = true ∧
    (clickStartCamera cameraModePage).2 = 2 ∧
    cameraActive doubleStartPage = true ∧
    doubleStartPage.timers = [0, 1] ∧
    heldTimer doubleStartPage = some 1 ∧
    cameraActive (stopCamera doubleStartPage none) = false ∧
    heldTimer (stopCamera doubleStartPage none) = none ∧
    (stopCamera doubleStartPage none).timers = [0] ∧
    (destroy doubleStartPage none).timers = [0] ∧
    (stopCamera doubleStartPage none).liveStreams = [0] := by
  decide

end Lumos
